import Mathlib

/-!
Verification of the ship-routing maritime planning engine.

This file shallowly embeds the core of the `ship-routing` backend
(land detection, fuel model, ocean-grid hazard overlays, the grid A*
planner, the hybrid bidirectional sampling planner, the D* replanner
and the route orchestrator) over exact rational arithmetic, and proves
or refutes the frozen specification claims about it.

Modelling conventions:
- Python floats are modelled by rationals; every arithmetic comparison
  proved about a concrete run is made at values where exact rational
  and IEEE double evaluation agree (margins are far above 1e-12).
- Python round(x, n) (banker s rounding) is modelled by pyRound below,
  which rounds half to even on exact rationals.
- math.sqrt appears only inside comparisons and heap keys; it is taken
  as an explicit function parameter sq of the embeddings.  Concrete
  closed runs instantiate sq := Rat.sqrt; at every comparison reached
  by such a run the argument is either an exact square of a rational
  or lies so far from the threshold that any monotone square-root
  approximation (including IEEE sqrt and Rat.sqrt) decides it alike.
-/

set_option allowUnsafeReducibility true in
attribute [semireducible] Rat.mul Rat.add Rat.sub Rat.inv Rat.ofScientific

namespace ShipRouting

/-- Latitude-longitude pair in decimal degrees, as used throughout the code. -/
abbrev Coord := ℚ × ℚ

/-- Python built-in round to an integer: round half to even (banker s rounding). -/
def pyRound (x : ℚ) : ℤ :=
  let f := ⌊x⌋
  let r := x - f
  if r < 1/2 then f
  else if 1/2 < r then f + 1
  else if f % 2 = 0 then f else f + 1

/-- Python round(x, n): round to n decimal places, half to even. -/
def roundDp (n : Nat) (x : ℚ) : ℚ :=
  (pyRound (x * 10 ^ n) : ℚ) / 10 ^ n

namespace LandDetection

/-- One step of the ray-casting loop of LandDetectionService.point_in_polygon:
whether the edge from p1 to p2 toggles the inside flag for the query point
(lat, lon).  The Python code computes xinters only when p1_lat != p2_lat; when
p1_lat == p2_lat the outer guard lat > min and lat <= max is unsatisfiable, so
the stale-variable branch of the source is unreachable and the translation
below returns false there. -/
def edgeCrosses (lat lon : ℚ) (p1 p2 : Coord) : Bool :=
  if lat > min p1.1 p2.1 then
    if lat ≤ max p1.1 p2.1 then
      if lon ≤ max p1.2 p2.2 then
        if p1.2 = p2.2 then true
        else if p1.1 ≠ p2.1 then
          lon ≤ (lat - p1.1) * (p2.2 - p1.2) / (p2.1 - p1.1) + p1.2
        else false
      else false
    else false
  else false

/-- LandDetectionService.point_in_polygon: odd-crossings ray casting.  The
Python loop visits the edges (polygon[i-1], polygon[i % n]) for i = 1..n,
i.e. the list zipped with its rotation by one. -/
def point_in_polygon (point : Coord) (polygon : List Coord) : Bool :=
  (polygon.zip (polygon.rotate 1)).foldl
    (fun inside e => if edgeCrosses point.1 point.2 e.1 e.2 then !inside else inside)
    false

/-- Polygon africa of LandDetectionService.LAND_POLYGONS ((lat, lon) vertices). -/
def africa : List Coord := [
  (37.5, -7), (36.5, -6), (35.5, -5), (34, -4),
  (32, 0), (30.5, 5), (29, 10), (28, 15),
  (28.5, 33), (28, 34.5), (27.5, 35), (27, 34),
  (27.5, 32), (28, 31), (20, 40), (10, 40.5),
  (0, 40), (-5, 38), (-10, 35), (-15, 30),
  (-20, 25), (-25, 20), (-30, 16), (-33, 18),
  (-34, 20), (-34.5, 22), (-34, 25), (-33, 28),
  (-32, 30), (-30, 31), (-28, 32), (-25, 33),
  (-20, 34), (-15, 34), (-10, 33), (-5, 32),
  (0, 30), (5, 28), (10, 25), (15, 20),
  (20, 15), (25, 10), (30, 5), (35, 0),
  (37.5, -7)]

/-- Polygon middle_east of LandDetectionService.LAND_POLYGONS ((lat, lon) vertices). -/
def middle_east : List Coord := [
  (28, 35), (27.5, 36), (27, 37), (26.5, 38),
  (26, 39), (25.5, 40), (25, 41), (24.5, 41.5),
  (24, 41), (23.5, 40), (23, 39), (22.5, 38),
  (22, 37), (21.5, 36), (21, 35), (21.5, 34),
  (22, 33), (22.5, 32), (23, 31.5), (24, 31),
  (25, 31), (26, 31.5), (27, 32), (28, 33),
  (28, 34), (28, 35)]

/-- Polygon india of LandDetectionService.LAND_POLYGONS ((lat, lon) vertices). -/
def india : List Coord := [
  (35.5, 74), (34, 75), (32.5, 75.5), (30.5, 77.5),
  (29, 78.5), (27.5, 79.5), (26.5, 88), (26, 90),
  (26, 92), (25.5, 93), (24.5, 93.5), (23.5, 92.5),
  (23, 91), (22.5, 89.5), (22, 88.5), (21, 88),
  (20, 86.5), (19, 85.5), (18, 84), (17, 83.2),
  (16, 82.5), (15, 81.8), (14, 81.2), (13.2, 80.2),
  (12.8, 80), (12, 79.5), (11, 79), (9.5, 78.3),
  (8.5, 77.5), (8.5, 76.9), (9, 76.7), (9.5, 76.5),
  (10, 76.2), (10.5, 75.9), (11, 75.6), (11.5, 75.3),
  (12, 75), (12.5, 74.7), (13, 74.4), (13.5, 74.1),
  (14, 73.8), (14.5, 73.6), (15, 73.4), (15.5, 73.2),
  (16, 73.1), (16.5, 73), (17, 72.95), (17.5, 72.9),
  (18, 72.85), (18.5, 72.8), (19, 72.75), (19.5, 72.7),
  (20, 72.65), (20.5, 72.6), (21, 72.55), (21.5, 72.5),
  (22, 72.45), (22.5, 72.4), (23, 72.2), (23.5, 71.8),
  (24, 71.2), (24.5, 70.6), (25, 70), (26, 69.5),
  (27, 69), (28, 68.7), (29, 68.5), (31, 69),
  (33, 71), (34.5, 73), (35.5, 74)]

/-- Polygon sri_lanka of LandDetectionService.LAND_POLYGONS ((lat, lon) vertices). -/
def sri_lanka : List Coord := [
  (7.5, 80), (7, 81), (6.5, 81.5), (6, 81.5),
  (5.5, 81), (5.5, 80), (6, 79.5), (6.5, 79.5),
  (7, 79.8), (7.5, 80)]

/-- Polygon indochina of LandDetectionService.LAND_POLYGONS ((lat, lon) vertices). -/
def indochina : List Coord := [
  (28, 95), (27, 96), (26, 97), (25, 98),
  (24, 99), (23, 99.5), (22, 99), (21, 98),
  (20, 97), (19, 96.5), (18, 96), (17, 95.5),
  (16, 95), (15, 94), (14, 93), (13, 92.5),
  (12, 92), (11, 91), (10, 90), (9, 89.5),
  (8, 90), (9, 91), (10, 92), (11, 93),
  (12, 94), (13, 95), (14, 95.5), (15, 95),
  (16, 96), (17, 97), (18, 98), (19, 99),
  (20, 100), (21, 101), (22, 100.5), (23, 100),
  (24, 100.5), (25, 101), (26, 102), (27, 103),
  (28, 95)]

/-- Polygon malaysia_peninsula of LandDetectionService.LAND_POLYGONS ((lat, lon) vertices). -/
def malaysia_peninsula : List Coord := [
  (6.8, 100.3), (6.5, 101.5), (6, 102.8), (5.4, 103.3),
  (4.7, 103.7), (4, 104), (3.2, 104.2), (2.5, 104.3),
  (1.9, 104.2), (1.9, 103.6), (2.4, 103), (3, 102.3),
  (3.7, 101.5), (4.5, 100.9), (5.3, 100.5), (6, 100.3),
  (6.5, 100.3), (6.8, 100.3)]

/-- Polygon sumatra of LandDetectionService.LAND_POLYGONS ((lat, lon) vertices). -/
def sumatra : List Coord := [
  (5.9, 95.2), (5.7, 96), (5.3, 96.8), (4.8, 97.5),
  (4.2, 98), (3.5, 98.4), (2.8, 98.7), (2, 98.9),
  (1, 99), (0, 99.1), (-1, 99.2), (-2, 99.4),
  (-3, 99.8), (-4, 100.5), (-5, 101.5), (-5.8, 102.5),
  (-6.3, 103.5), (-6.5, 104.5), (-6.2, 105.5), (-5.5, 106),
  (-4.5, 106), (-3.5, 105.5), (-2.5, 105), (-1.5, 104.5),
  (-0.5, 104), (0.5, 103.5), (1.5, 103), (2.5, 102.5),
  (3.5, 102), (4.2, 101), (4.8, 100), (5.2, 99),
  (5.6, 98), (5.9, 97), (6, 96), (6, 95.5),
  (5.9, 95.2)]

/-- Polygon java of LandDetectionService.LAND_POLYGONS ((lat, lon) vertices). -/
def java : List Coord := [
  (-5.5, 105), (-6, 106), (-6.5, 107), (-6.8, 108),
  (-7, 109), (-7, 110), (-6.8, 111), (-6.5, 110.5),
  (-6, 109.5), (-5.5, 108), (-5, 107), (-5, 106),
  (-5.5, 105)]

/-- Polygon borneo of LandDetectionService.LAND_POLYGONS ((lat, lon) vertices). -/
def borneo : List Coord := [
  (-1, 108), (-1.5, 109), (-2, 110), (-2.5, 111),
  (-3, 111.5), (-3.5, 111), (-3, 110), (-2.5, 109),
  (-2, 108.5), (-1.5, 108), (-1, 108)]

/-- Polygon sulawesi of LandDetectionService.LAND_POLYGONS ((lat, lon) vertices). -/
def sulawesi : List Coord := [
  (-2, 119), (-2.5, 120), (-3, 120.5), (-3.5, 120),
  (-3, 119), (-2.5, 118.5), (-2, 119)]

/-- Polygon philippines of LandDetectionService.LAND_POLYGONS ((lat, lon) vertices). -/
def philippines : List Coord := [
  (18, 120), (17.5, 121), (16.5, 121.5), (15.5, 121),
  (14.5, 120.5), (13.5, 120), (12.5, 119.5), (11.5, 120),
  (10.5, 120.5), (10, 121), (11, 121.5), (12, 121.5),
  (13, 121), (14, 120.5), (15, 120), (16, 120),
  (17, 120.5), (18, 120)]

/-- Polygon singapore of LandDetectionService.LAND_POLYGONS ((lat, lon) vertices). -/
def singapore : List Coord := [
  (1.4, 103.6), (1.3, 103.9), (1.2, 103.8), (1.3, 103.7),
  (1.4, 103.6)]

/-- Polygon png of LandDetectionService.LAND_POLYGONS ((lat, lon) vertices). -/
def png : List Coord := [
  (-2, 130), (-3, 131), (-4, 132), (-5, 132.5),
  (-6, 131), (-5.5, 130), (-4.5, 129.5), (-3.5, 129),
  (-2.5, 129.5), (-2, 130)]

/-- Polygon australia of LandDetectionService.LAND_POLYGONS ((lat, lon) vertices). -/
def australia : List Coord := [
  (-10, 113), (-11, 114), (-12, 115), (-13, 116),
  (-14, 117), (-15, 118), (-16, 119), (-17, 120),
  (-18, 120), (-19, 119), (-20, 118), (-21, 117),
  (-22, 116), (-23, 115), (-24, 114), (-25, 113),
  (-26, 112), (-27, 113), (-28, 114), (-29, 115),
  (-30, 116), (-31, 117), (-32, 118), (-33, 119),
  (-34, 120), (-35, 119), (-36, 118), (-37, 117),
  (-38, 116), (-39, 115), (-40, 114), (-41, 113),
  (-42, 112), (-43, 111), (-44, 110), (-44, 109),
  (-43, 108), (-42, 107), (-41, 106), (-40, 105),
  (-39, 104), (-38, 103), (-37, 102), (-36, 101),
  (-35, 100), (-34, 99), (-33, 98), (-32, 97),
  (-31, 96), (-30, 95), (-29, 94), (-28, 93),
  (-27, 92), (-26, 91), (-25, 90), (-24, 89),
  (-23, 88), (-22, 87), (-21, 86), (-20, 85),
  (-19, 84), (-18, 83), (-17, 82), (-16, 81),
  (-15, 80), (-14, 79), (-13, 78), (-12, 77),
  (-11, 76), (-10, 75), (-10, 113)]

/-- The fixed land atlas LandDetectionService.LAND_POLYGONS, in the Python
dict insertion order in which is_point_on_land iterates it. -/
def LAND_POLYGONS : List (List Coord) :=
  [africa, middle_east, india, sri_lanka, indochina, malaysia_peninsula,
   sumatra, java, borneo, sulawesi, philippines, singapore, png, australia]

/-- LandDetectionService.is_point_on_land: true iff the point lies in any
polygon of the atlas (short-circuiting over the dict order). -/
def is_point_on_land (lat lon : ℚ) : Bool :=
  LAND_POLYGONS.any (fun polygon => point_in_polygon (lat, lon) polygon)

/-- LandDetectionService.line_crosses_land: endpoint checks followed by
num_checks - 1 equally spaced interior samples (Python range(1, num_checks)). -/
def line_crosses_land (lat1 lon1 lat2 lon2 : ℚ) (numChecks : Nat := 50) : Bool :=
  if is_point_on_land lat1 lon1 then true
  else if is_point_on_land lat2 lon2 then true
  else (List.range' 1 (numChecks - 1)).any fun i =>
    let t : ℚ := (i : ℚ) / (numChecks : ℚ)
    is_point_on_land (lat1 + t * (lat2 - lat1)) (lon1 + t * (lon2 - lon1))

end LandDetection

end ShipRouting


namespace ShipRouting

namespace FuelModel

/-- The fields of a VesselSpecifications.SPECIFICATIONS entry that the fuel
computation reads. -/
structure VesselSpec where
  designSpeedKnots : ℚ
  nominalFuelConsumptionTPerDay : ℚ
  fuelTankCapacityT : ℚ

/-- The container_10000 vessel (Container Ship 10000 TEU): design speed 19 kt,
nominal consumption 220 t/day, tank capacity 4750 t. -/
def container_10000 : VesselSpec :=
  { designSpeedKnots := 19, nominalFuelConsumptionTPerDay := 220, fuelTankCapacityT := 4750 }

/-- Values computed by FuelConsumptionModel.calculate_fuel_consumption.
The internal variable weather_increased_consumption is kept alongside the
reported dict entries actual_consumption_t_day and co2_emissions_t_day,
which the source rounds to 2 decimal places. -/
structure FuelCalc where
  speedOverDesign : ℚ
  speedFactor : ℚ
  loadAdjusted : ℚ
  calmWaterConsumptionTDay : ℚ
  weatherIncreasedConsumption : ℚ
  actualConsumptionTDay : ℚ
  co2EmissionsTDay : ℚ

/-- FuelConsumptionModel.calculate_fuel_consumption. -/
def calculate_fuel_consumption (spec : VesselSpec)
    (speedKnots weatherFactor loadFactor : ℚ) : FuelCalc :=
  let designSpeed := spec.designSpeedKnots
  let baseConsumption := spec.nominalFuelConsumptionTPerDay
  let speedOverDesign := speedKnots / designSpeed
  let speedFactor := speedOverDesign ^ 3
  let loadAdjusted := 0.6 + 0.4 * loadFactor
  let calmWater := baseConsumption * speedFactor * loadAdjusted
  let weatherIncreased := calmWater * weatherFactor
  let co2 := weatherIncreased * 3.17
  { speedOverDesign := speedOverDesign
    speedFactor := speedFactor
    loadAdjusted := loadAdjusted
    calmWaterConsumptionTDay := calmWater
    weatherIncreasedConsumption := weatherIncreased
    actualConsumptionTDay := roundDp 2 weatherIncreased
    co2EmissionsTDay := roundDp 2 co2 }

/-- Values computed by FuelConsumptionModel.estimate_voyage_fuel. -/
structure VoyageEstimate where
  voyageTimeHours : ℚ
  voyageTimeDays : ℚ
  totalFuelTons : ℚ
  totalCo2Tons : ℚ
  dailyConsumptionTons : ℚ
  sufficientFuel : Bool

/-- FuelConsumptionModel.estimate_voyage_fuel.  The total fuel is the reported
(2-decimal-rounded) daily consumption times the voyage time in days, and the
total CO2 is the reported daily CO2 times the voyage time in days; the division
by the speed is guarded, yielding 0 hours at speed 0. -/
def estimate_voyage_fuel (spec : VesselSpec)
    (distanceNm avgSpeedKnots weatherFactor loadFactor : ℚ) : VoyageEstimate :=
  let daily := calculate_fuel_consumption spec avgSpeedKnots weatherFactor loadFactor
  let voyageTimeHours := if avgSpeedKnots > 0 then distanceNm / avgSpeedKnots else 0
  let voyageTimeDays := voyageTimeHours / 24
  let totalFuelTons := daily.actualConsumptionTDay * voyageTimeDays
  let totalCo2Tons := daily.co2EmissionsTDay * voyageTimeDays
  { voyageTimeHours := voyageTimeHours
    voyageTimeDays := voyageTimeDays
    totalFuelTons := totalFuelTons
    totalCo2Tons := totalCo2Tons
    dailyConsumptionTons := daily.actualConsumptionTDay
    sufficientFuel := decide (totalFuelTons ≤ spec.fuelTankCapacityT) }

end FuelModel

end ShipRouting


namespace ShipRouting

/-- Fuel-bounded integer square root by binary search on [lo, hi).  Structural
recursion, so it evaluates inside the kernel; the search stops as soon as the
interval has width 1, so only about log2 n of the fuel is ever consumed. -/
def isqrtGo (n : Nat) : Nat → Nat → Nat → Nat
  | 0, lo, _ => lo
  | fuel + 1, lo, hi =>
    if lo + 1 < hi then
      let m := (lo + hi) / 2
      if m * m ≤ n then isqrtGo n fuel m hi else isqrtGo n fuel lo m
    else lo

/-- Floor integer square root (kernel-evaluable). -/
def isqrt (n : Nat) : Nat := isqrtGo n n 0 (n + 1)

/-- Rational square-root approximation: floor square root of the numerator over
floor square root of the denominator.  It is exact whenever numerator and
denominator of the reduced input are perfect squares; concrete runs below
instantiate the sq parameter (which models Python math.sqrt) with this
function, and every comparison such a run reaches is either exact or decided
with a margin far larger than the approximation error. -/
def ratSqrt (q : ℚ) : ℚ := (isqrt q.num.toNat : ℚ) / (isqrt q.den : ℚ)

namespace OceanGridModel

/-- Classification of ocean grid cells (ocean_grid.CellType). -/
inductive CellType where
  | LAND
  | SHALLOW
  | HAZARD
  | WATER
  | UNKNOWN
deriving DecidableEq

/-- A single cell of the ocean grid (ocean_grid.GridCell); cost is 1.0 for
water, larger for hazards and infinite for land, modelled in WithTop. -/
structure GridCell where
  lat : ℚ
  lon : ℚ
  level : Nat
  cellType : CellType
  depthM : ℚ
  cost : WithTop ℚ
  weatherFactor : ℚ

/-- OceanGrid.COST_MULTIPLIERS; the source dict has no entry for UNKNOWN. -/
def COST_MULTIPLIERS : CellType → Option (WithTop ℚ)
  | .WATER => some 1
  | .SHALLOW => some 3
  | .HAZARD => some ((2.5 : ℚ) : WithTop ℚ)
  | .LAND => some ⊤
  | .UNKNOWN => none

/-- OceanGrid.add_hazard_zone, restricted to its effect on one cell (the
Python loop mutates every grid cell independently).  A cell within radiusDeg
of the center that is not LAND becomes HAZARD with cost
COST_MULTIPLIERS[HAZARD] * cost_multiplier and weather factor
cost_multiplier. -/
def add_hazard_zone (sq : ℚ → ℚ) (centerLat centerLon radiusDeg costMultiplier : ℚ)
    (cell : GridCell) : GridCell :=
  let dist := sq ((cell.lat - centerLat) ^ 2 + (cell.lon - centerLon) ^ 2)
  if dist ≤ radiusDeg ∧ cell.cellType ≠ .LAND then
    { cell with
      cellType := if cell.cellType ≠ .HAZARD then .HAZARD else cell.cellType
      cost := ((COST_MULTIPLIERS .HAZARD).getD 1) * ((costMultiplier : ℚ) : WithTop ℚ)
      weatherFactor := costMultiplier }
  else cell

/-- OceanGrid.add_traffic_separation_schemes, per cell: the four TSS overlays
(Suez approach, Singapore Strait, Malacca Strait, Arabian Sea lanes) applied
in source order, each with multiplier 0.8 or 0.9. -/
def add_traffic_separation_schemes (sq : ℚ → ℚ) (cell : GridCell) : GridCell :=
  add_hazard_zone sq 10 60 3 0.9
    (add_hazard_zone sq 2.0 101.0 2 0.8
      (add_hazard_zone sq 1.3 103.8 1.5 0.8
        (add_hazard_zone sq 30.5 32.3 2 0.8 cell)))

/-- A WATER cell at the center of the Suez traffic-lane overlay, with the
base water cost 1 assigned by classification. -/
def suezWaterCell : GridCell :=
  { lat := 30.5, lon := 32.3, level := 1, cellType := .WATER, depthM := 200,
    cost := 1, weatherFactor := 1 }

end OceanGridModel

end ShipRouting


namespace ShipRouting

namespace Heapq

variable {α : Type _}

/-- CPython heapq._siftdown: newitem walks up from pos toward startpos,
displacing larger parents.  The fuel argument (instantiated with pos, which
bounds the length of the parent chain) makes the recursion structural so that
it evaluates inside the kernel. -/
def siftdownGo (lt : α → α → Bool) (newitem : α) (startpos : Nat) :
    Nat → Nat → List α → List α
  | 0, pos, heap => heap.set pos newitem
  | fuel + 1, pos, heap =>
    if startpos < pos then
      let parentpos := (pos - 1) / 2
      match heap.get? parentpos with
      | some parent =>
        if lt newitem parent then
          siftdownGo lt newitem startpos fuel parentpos (heap.set pos parent)
        else heap.set pos newitem
      | none => heap.set pos newitem
    else heap.set pos newitem

/-- CPython heapq._siftdown(heap, startpos, pos). -/
def siftdown (lt : α → α → Bool) (startpos pos : Nat) (heap : List α) : List α :=
  match heap.get? pos with
  | some newitem => siftdownGo lt newitem startpos pos pos heap
  | none => heap

/-- CPython heapq._siftup: the hole at pos walks down to a leaf, then the
saved newitem is sifted back up.  The fuel (instantiated with endpos, a bound
on the walk length) keeps the recursion structural. -/
def siftupGo (lt : α → α → Bool) (endpos startpos : Nat) (newitem : α) :
    Nat → Nat → List α → List α
  | 0, pos, heap => siftdown lt startpos pos (heap.set pos newitem)
  | fuel + 1, pos, heap =>
    let childpos := 2 * pos + 1
    if childpos < endpos then
      let rightpos := childpos + 1
      let cp :=
        if rightpos < endpos ∧
            ¬(lt (heap.getD childpos newitem) (heap.getD rightpos newitem)) then
          rightpos
        else childpos
      siftupGo lt endpos startpos newitem fuel cp (heap.set pos (heap.getD cp newitem))
    else siftdown lt startpos pos (heap.set pos newitem)

/-- CPython heapq._siftup(heap, pos). -/
def siftup (lt : α → α → Bool) (pos : Nat) (heap : List α) : List α :=
  match heap.get? pos with
  | some newitem => siftupGo lt heap.length pos newitem heap.length pos heap
  | none => heap

/-- CPython heapq.heappush. -/
def heappush (lt : α → α → Bool) (heap : List α) (item : α) : List α :=
  siftdown lt 0 heap.length (heap ++ [item])

/-- CPython heapq.heappop: pop the last element; if the heap is still
nonempty, move it to the root and sift up, returning the old root. -/
def heappop (lt : α → α → Bool) (heap : List α) : Option (α × List α) :=
  match heap.getLast? with
  | none => none
  | some lastelt =>
    match heap.dropLast.head? with
    | none => some (lastelt, [])
    | some returnitem => some (returnitem, siftup lt 0 (heap.dropLast.set 0 lastelt))

/-- CPython heapq.heapify: sift up every internal node, last first. -/
def heapifyGo (lt : α → α → Bool) : Nat → List α → List α
  | 0, heap => heap
  | i + 1, heap => heapifyGo lt i (siftup lt i heap)

/-- CPython heapq.heapify. -/
def heapify (lt : α → α → Bool) (heap : List α) : List α :=
  heapifyGo lt (heap.length / 2) heap

/-- Python list.remove(x) with equality predicate eqb: delete the first
matching element (no-op when nothing matches, where Python would raise). -/
def removeFirst (eqb : α → α → Bool) (x : α) : List α → List α
  | [] => []
  | y :: ys => if eqb y x then ys else y :: removeFirst eqb x ys

end Heapq


/-- The Python lattice loop x = lo; while x <= hi: ...; x += step, with enough
structural fuel to cover the range (exact rational steps). -/
def qRangeGo (step hi : ℚ) : Nat → ℚ → List ℚ
  | 0, _ => []
  | fuel + 1, x => if x ≤ hi then x :: qRangeGo step hi fuel (x + step) else []

/-- The values visited by the lattice while-loop from lo to hi by step. -/
def qRange (lo hi step : ℚ) : List ℚ :=
  qRangeGo step hi (((hi - lo) / step).floor.toNat + 1) lo

namespace MaritimeAStar

open LandDetection

/-- maritime_astar.Node: dataclass(order=True) with only f_score taking part
in comparisons; the parent reference is modelled by nesting. -/
inductive Node where
  | mk (fScore gScore lat lon : ℚ) (parent : Option Node)

def Node.fScore : Node → ℚ
  | .mk f _ _ _ _ => f

def Node.gScore : Node → ℚ
  | .mk _ g _ _ _ => g

def Node.lat : Node → ℚ
  | .mk _ _ la _ _ => la

def Node.lon : Node → ℚ
  | .mk _ _ _ lo _ => lo

def Node.parent : Node → Option Node
  | .mk _ _ _ _ p => p

/-- The dataclass order on Node used by the heap: compare f_score only. -/
def nodeLt (a b : Node) : Bool := a.fScore < b.fScore

/-- MaritimeAStar._build_water_grid: water-only cell keys (rounded to 2
decimals) over the padded bounding box.  The Python set is modelled as a
list; only membership is ever used, so duplicates are irrelevant. -/
def build_water_grid (minLat maxLat minLon maxLon res : ℚ) : List Coord :=
  (qRange minLat maxLat res).flatMap fun lat =>
    (qRange minLon maxLon res).filterMap fun lon =>
      if is_point_on_land lat lon then none
      else some (roundDp 2 lat, roundDp 2 lon)

/-- MaritimeAStar._haversine: planar distance in degrees, sqrt(dlat^2 +
dlon^2), with math.sqrt passed in as sq. -/
def haversineDeg (sq : ℚ → ℚ) (lat1 lon1 lat2 lon2 : ℚ) : ℚ :=
  sq ((lat2 - lat1) ^ 2 + (lon2 - lon1) ^ 2)

/-- MaritimeAStar._get_neighbors: 8-connected water cells around a point, in
the Python nested-loop order. -/
def get_neighbors (waterCells : List Coord) (res lat lon : ℚ) : List Coord :=
  [-res, 0, res].flatMap fun dlat =>
    [-res, 0, res].filterMap fun dlon =>
      if dlat = 0 ∧ dlon = 0 then none
      else
        let nlat := roundDp 2 (lat + dlat)
        let nlon := roundDp 2 (lon + dlon)
        if (nlat, nlon) ∈ waterCells then some (nlat, nlon) else none

/-- MaritimeAStar._snap_to_grid: round to the grid; if that cell is not water,
linear scan for the nearest water cell (first strictly better wins, starting
from infinity, so the default (grid_lat, grid_lon) survives only when there
are no water cells at all). -/
def snap_to_grid (sq : ℚ → ℚ) (waterCells : List Coord) (res lat lon : ℚ) : Coord :=
  let gridLat := (pyRound (lat / res) : ℚ) * res
  let gridLon := (pyRound (lon / res) : ℚ) * res
  if (roundDp 2 gridLat, roundDp 2 gridLon) ∈ waterCells then (gridLat, gridLon)
  else
    (waterCells.foldl
      (fun best c =>
        let d := haversineDeg sq lat lon c.1 c.2
        if (d : WithTop ℚ) < best.2 then (c, (d : WithTop ℚ)) else best)
      ((gridLat, gridLon), (⊤ : WithTop ℚ))).1

/-- Python dict lookup on an association list with unique keys. -/
def lookup (m : List (Coord × ℚ)) (k : Coord) : Option ℚ :=
  (m.find? (fun e => e.1 == k)).map (·.2)

/-- Python dict assignment: replace the value of an existing key in place, or
append a fresh binding. -/
def insertKV : List (Coord × ℚ) → Coord → ℚ → List (Coord × ℚ)
  | [], k, v => [(k, v)]
  | e :: es, k, v => if e.1 = k then (k, v) :: es else e :: insertKV es k v

/-- State of the A* main loop: the open heap, the closed list and the g_scores
dict. -/
structure AState where
  openSet : List Node
  closedSet : List Coord
  gScores : List (Coord × ℚ)

/-- The body and loop of MaritimeAStar.plan: pop the best node, check the goal
tolerance, expand the 8 neighbors, push improving nodes; the fuel is the
source iteration cap (10000). -/
def astarGo (sq : ℚ → ℚ) (waterCells : List Coord) (res : ℚ) (goalCell : Coord) :
    Nat → AState → Option Node
  | 0, _ => none
  | fuel + 1, st =>
    match Heapq.heappop nodeLt st.openSet with
    | none => none
    | some (current, openRest) =>
      if |current.lat - goalCell.1| < res ∧ |current.lon - goalCell.2| < res then
        some current
      else
        let closed1 := st.closedSet ++ [(current.lat, current.lon)]
        let expanded :=
          (get_neighbors waterCells res current.lat current.lon).foldl
            (fun (acc : List Node × List (Coord × ℚ)) nb =>
              if nb ∈ closed1 then acc
              else
                let moveCost := haversineDeg sq current.lat current.lon nb.1 nb.2
                let tentativeG := current.gScore + moveCost
                let better :=
                  match lookup acc.2 nb with
                  | none => true
                  | some g => decide (tentativeG < g)
                if better then
                  let hScore := haversineDeg sq nb.1 nb.2 goalCell.1 goalCell.2
                  let nd := Node.mk (tentativeG + hScore) tentativeG nb.1 nb.2 (some current)
                  (Heapq.heappush nodeLt acc.1 nd, insertKV acc.2 nb tentativeG)
                else acc)
            (openRest, st.gScores)
        astarGo sq waterCells res goalCell fuel ⟨expanded.1, closed1, expanded.2⟩

/-- MaritimeAStar._reconstruct_path: walk the parent chain and reverse. -/
def pathOf : Node → List Coord
  | .mk _ _ la lo none => [(la, lo)]
  | .mk _ _ la lo (some p) => pathOf p ++ [(la, lo)]

/-- MaritimeAStar.plan with the default 0.5-degree resolution: build the water
grid over the padded box, snap the endpoints, run A* for at most 10000
iterations, and on failure fall back to the raw [start, goal] polyline. -/
def plan (sq : ℚ → ℚ) (start goal : Coord) : List Coord :=
  let res : ℚ := 0.5
  let minLat := min start.1 goal.1 - 2
  let maxLat := max start.1 goal.1 + 2
  let minLon := min start.2 goal.2 - 2
  let maxLon := max start.2 goal.2 + 2
  let waterCells := build_water_grid minLat maxLat minLon maxLon res
  let startCell := snap_to_grid sq waterCells res start.1 start.2
  let goalCell := snap_to_grid sq waterCells res goal.1 goal.2
  let startNode :=
    Node.mk (haversineDeg sq startCell.1 startCell.2 goalCell.1 goalCell.2)
      0 startCell.1 startCell.2 none
  match astarGo sq waterCells res goalCell 10000
      ⟨[startNode], [], [(startCell, 0)]⟩ with
  | some node => pathOf node
  | none => [start, goal]

end MaritimeAStar

end ShipRouting


namespace ShipRouting

namespace Hybrid

open LandDetection

/-- TreeNode of hybrid_bidirectional_rrt_star: position, cost from root and
parent reference (modelled by nesting; nodes are never mutated after
creation, since this planner has no rewiring). -/
inductive HNode where
  | mk (lat lon cost : ℚ) (parent : Option HNode)

def HNode.lat : HNode → ℚ
  | .mk la _ _ _ => la

def HNode.lon : HNode → ℚ
  | .mk _ lo _ _ => lo

def HNode.cost : HNode → ℚ
  | .mk _ _ c _ => c

def HNode.parent : HNode → Option HNode
  | .mk _ _ _ p => p

/-- TreeNode.__hash__: hash of the coordinates rounded to 4 decimals. -/
def hash4 (n : HNode) : Coord := (roundDp 4 n.lat, roundDp 4 n.lon)

/-- TreeNode.__eq__: coordinates within 1e-4 in both components. -/
def nodeEqTol (a b : HNode) : Bool :=
  |a.lat - b.lat| < 1/10000 ∧ |a.lon - b.lon| < 1/10000

/-- Python set membership: an element of the right hash bucket that also
compares equal.  The set itself is modelled as a list in insertion order
(CPython iterates sets in hash-table order; every minimum taken over a tree
in the runs proved below is strict, so the iteration order never matters). -/
def setMember (tree : List HNode) (n : HNode) : Bool :=
  tree.any fun m => hash4 m = hash4 n ∧ nodeEqTol m n

/-- Python set.add: no-op if an equal member exists. -/
def setAdd (tree : List HNode) (n : HNode) : List HNode :=
  if setMember tree n then tree else tree ++ [n]

/-- A circular hazard zone (center, radius in degrees, cost multiplier). -/
structure Zone where
  clat : ℚ
  clon : ℚ
  radius : ℚ
  mult : ℚ

/-- A seasonal monsoon zone with its active months. -/
structure MonsoonZone where
  clat : ℚ
  clon : ℚ
  radius : ℚ
  months : List Nat
  mult : ℚ

/-- _init_hazard_zones: shallow-water zones. -/
def shallow_water_zones : List Zone :=
  [⟨30.5, 32.3, 0.5, 1.5⟩, ⟨19.0, 40.0, 1.0, 1.3⟩, ⟨2.5, 102.0, 0.8, 1.4⟩,
   ⟨10.0, 105.0, 1.0, 1.3⟩]

/-- _init_hazard_zones: piracy zones. -/
def piracy_zones : List Zone :=
  [⟨10.5, 50.0, 2.0, 1.2⟩, ⟨0.5, 102.5, 1.5, 1.1⟩]

/-- _init_hazard_zones: monsoon zones. -/
def monsoon_zones : List MonsoonZone :=
  [⟨15.0, 65.0, 3.0, [5, 6, 7, 8, 9], 1.3⟩, ⟨15.0, 90.0, 3.0, [5, 6, 7, 8, 9], 1.25⟩]

/-- _get_hazard_cost: proximity-decayed multipliers of the shallow, piracy and
(month-gated) monsoon zones; the current month (datetime.utcnow) is passed as
a parameter. -/
def get_hazard_cost (sq : ℚ → ℚ) (month : Nat) (lat lon : ℚ) : ℚ :=
  let c1 := shallow_water_zones.foldl
    (fun cost z =>
      let dist := sq ((lat - z.clat) ^ 2 + (lon - z.clon) ^ 2)
      if dist < z.radius then cost * (1 + (z.mult - 1) * (1 - dist / z.radius))
      else cost) 1
  let c2 := piracy_zones.foldl
    (fun cost z =>
      let dist := sq ((lat - z.clat) ^ 2 + (lon - z.clon) ^ 2)
      if dist < z.radius * 0.8 then cost * (z.mult * 0.8) else cost) c1
  monsoon_zones.foldl
    (fun cost z =>
      if month ∈ z.months then
        let dist := sq ((lat - z.clat) ^ 2 + (lon - z.clon) ^ 2)
        if dist < z.radius then cost * (1 + (z.mult - 1) * (1 - dist / z.radius))
        else cost
      else cost) c2

/-- _segment_cost: planar length times midpoint hazard cost times the constant
weather multiplier 1.0. -/
def segment_cost (sq : ℚ → ℚ) (month : Nat) (lat1 lon1 lat2 lon2 : ℚ) : ℚ :=
  let dist := sq ((lat2 - lat1) ^ 2 + (lon2 - lon1) ^ 2)
  let hazardCost := get_hazard_cost sq month ((lat1 + lat2) / 2) ((lon1 + lon2) / 2)
  dist * hazardCost * 1

/-- _is_collision_free: 2 to 15 interior samples depending on planar segment
length, then both endpoints; any land hit rejects. -/
def is_collision_free (sq : ℚ → ℚ) (lat1 lon1 lat2 lon2 : ℚ) : Bool :=
  let segmentLength := sq ((lat2 - lat1) ^ 2 + (lon2 - lon1) ^ 2)
  let numSamples : Nat :=
    if segmentLength > 1 then 15
    else if segmentLength > 0.5 then 8
    else if segmentLength > 0.1 then 4
    else 2
  if (List.range' 1 numSamples).any (fun i =>
      let t : ℚ := (i : ℚ) / ((numSamples : ℚ) + 1)
      is_point_on_land (lat1 + t * (lat2 - lat1)) (lon1 + t * (lon2 - lon1))) then
    false
  else if is_point_on_land lat1 lon1 then false
  else if is_point_on_land lat2 lon2 then false
  else true

/-- _distance: planar degrees distance. -/
def distanceDeg (sq : ℚ → ℚ) (p1 p2 : Coord) : ℚ :=
  sq ((p1.1 - p2.1) ^ 2 + (p1.2 - p2.2) ^ 2)

/-- _nearest_node: Python min over the tree; the first strictly minimal
element wins. -/
def nearest_node (sq : ℚ → ℚ) (point : Coord) : List HNode → Option HNode
  | [] => none
  | n :: ns =>
    some (ns.foldl
      (fun best m =>
        if distanceDeg sq (m.lat, m.lon) point < distanceDeg sq (best.lat, best.lon) point
        then m else best) n)

/-- _extend: steer from the nearest node toward the point by at most
step_size_deg, collision-check the segment, and insert the new node. -/
def extend (sq : ℚ → ℚ) (month : Nat) (stepDeg : ℚ) (tree : List HNode)
    (point : Coord) : Option (HNode × List HNode) :=
  match nearest_node sq point tree with
  | none => none
  | some nearest =>
    let dist := distanceDeg sq (nearest.lat, nearest.lon) point
    let newPos :=
      if dist < stepDeg then point
      else
        let t := stepDeg / dist
        (nearest.lat + t * (point.1 - nearest.lat), nearest.lon + t * (point.2 - nearest.lon))
    if is_collision_free sq nearest.lat nearest.lon newPos.1 newPos.2 then
      let newNode := HNode.mk newPos.1 newPos.2
        (nearest.cost + segment_cost sq month nearest.lat nearest.lon newPos.1 newPos.2)
        (some nearest)
      some (newNode, setAdd tree newNode)
    else none

/-- State threaded through the plan loop: the two trees, the best connection
and its cost, and the position in the ambient random stream. -/
structure HState where
  treeS : List HNode
  treeG : List HNode
  conn : Option (HNode × HNode)
  bestCost : WithTop ℚ
  rngIdx : Nat

/-- One direction of an iteration of plan: extend treeA toward the sampled
point, then try to connect treeB to the new node and record the connection if
its combined cost beats the best so far.  flip reverses the recorded pair so
that connections are always stored as (start-tree node, goal-tree node). -/
def halfStep (sq : ℚ → ℚ) (month : Nat) (stepDeg : ℚ) (randPoint : Coord)
    (treeA treeB : List HNode) (conn : Option (HNode × HNode)) (best : WithTop ℚ)
    (flip : Bool) :
    List HNode × List HNode × Option (HNode × HNode) × WithTop ℚ :=
  match extend sq month stepDeg treeA randPoint with
  | none => (treeA, treeB, conn, best)
  | some (newA, treeA1) =>
    if setMember treeA1 newA then
      match extend sq month stepDeg treeB (newA.lat, newA.lon) with
      | none => (treeA1, treeB, conn, best)
      | some (newB, treeB1) =>
        if setMember treeB1 newB then
          if is_collision_free sq newA.lat newA.lon newB.lat newB.lon then
            let total : WithTop ℚ :=
              ((newA.cost + newB.cost +
                segment_cost sq month newA.lat newA.lon newB.lat newB.lon : ℚ) : WithTop ℚ)
            if total < best then
              (treeA1, treeB1, some (if flip then (newB, newA) else (newA, newB)), total)
            else (treeA1, treeB1, conn, best)
          else (treeA1, treeB1, conn, best)
        else (treeA1, treeB1, conn, best)
    else (treeA1, treeB, conn, best)

/-- One iteration of the plan loop.  random.random() draws are read off the
ambient stream rng at the running index; _get_random_water_point is the
oracle gwp (it samples the global Level-2 ocean grid, which is outside this
embedding; every run proved below stays in the goal-bias branch and never
invokes it), consuming the stream from the given index and returning the next
index. -/
def planIter (sq : ℚ → ℚ) (month : Nat) (gwp : Nat → Coord × Nat) (rng : Nat → ℚ)
    (start goal : Coord) (goalBias stepDeg : ℚ) (st : HState) : HState :=
  let (rand1, k1) :=
    if rng st.rngIdx < goalBias then (goal, st.rngIdx + 1) else gwp (st.rngIdx + 1)
  let s1 := halfStep sq month stepDeg rand1 st.treeS st.treeG st.conn st.bestCost false
  let (rand2, k2) := if rng k1 < goalBias then (start, k1 + 1) else gwp (k1 + 1)
  let s2 := halfStep sq month stepDeg rand2 s1.2.1 s1.1 s1.2.2.1 s1.2.2.2 true
  ⟨s2.2.1, s2.1, s2.2.2.1, s2.2.2.2, k2⟩

/-- The for-loop of plan over max_iterations. -/
def planLoop (sq : ℚ → ℚ) (month : Nat) (gwp : Nat → Coord × Nat) (rng : Nat → ℚ)
    (start goal : Coord) (goalBias stepDeg : ℚ) : Nat → HState → HState
  | 0, st => st
  | n + 1, st => planLoop sq month gwp rng start goal goalBias stepDeg n
      (planIter sq month gwp rng start goal goalBias stepDeg st)

/-- The node-to-root coordinate chain (node first). -/
def chainOut : HNode → List Coord
  | .mk la lo _ none => [(la, lo)]
  | .mk la lo _ (some p) => (la, lo) :: chainOut p

/-- Path reconstruction of plan: start-side chain reversed, then the goal-side
chain outward. -/
def reconstruct (conn : HNode × HNode) : List Coord :=
  (chainOut conn.1).reverse ++ chainOut conn.2

/-- HybridBidirectionalRRTStar.plan.  hvDistNm is the haversine route
distance (math trig, passed as an oracle value) that selects the adaptive
goal bias; the final land-validation sweep of the source only prints warnings
and never alters the path, so it has no model. -/
def plan (sq : ℚ → ℚ) (month : Nat) (gwp : Nat → Coord × Nat) (rng : Nat → ℚ)
    (hvDistNm : ℚ) (start goal : Coord) (maxIterations : Nat) (stepSizeNm : ℚ) :
    List Coord :=
  let stepDeg := stepSizeNm / 60
  let goalBias : ℚ :=
    if hvDistNm < 500 then 0.5 else if hvDistNm < 1000 then 0.35 else 0.2
  let init : HState :=
    ⟨[HNode.mk start.1 start.2 0 none], [HNode.mk goal.1 goal.2 0 none], none, ⊤, 0⟩
  let final := planLoop sq month gwp rng start goal goalBias stepDeg maxIterations init
  match final.conn with
  | some conn => reconstruct conn
  | none =>
    let startNodes := final.treeS.drop (final.treeS.length - 20)
    let goalNodes := final.treeG.drop (final.treeG.length - 20)
    let bestPair :=
      startNodes.foldl
        (fun acc sn =>
          goalNodes.foldl
            (fun (acc2 : Option (HNode × HNode) × WithTop ℚ) gn =>
              if is_collision_free sq sn.lat sn.lon gn.lat gn.lon then
                let total : WithTop ℚ :=
                  ((sn.cost + gn.cost +
                    segment_cost sq month sn.lat sn.lon gn.lat gn.lon : ℚ) : WithTop ℚ)
                if total < acc2.2 then (some (sn, gn), total) else acc2
              else acc2) acc)
        ((none : Option (HNode × HNode)), (⊤ : WithTop ℚ))
    match bestPair.1 with
    | some conn => reconstruct conn
    | none => []

end Hybrid

end ShipRouting


namespace ShipRouting

namespace DStar

open LandDetection

/-- Numeric domain of g, rhs and key components: rationals plus infinity. -/
abbrev Val := WithTop ℚ

/-- DStarNode: raw coordinates with g, rhs and the stored priority key.  The
parent field of the source dataclass is never read by the algorithm and has
no model. -/
structure DNode where
  lat : ℚ
  lon : ℚ
  g : Val
  rhs : Val
  key : Val × Val

/-- Fresh DStarNode(lat, lon): g = rhs = inf, key = (inf, inf). -/
def mkNode (lat lon : ℚ) : DNode := ⟨lat, lon, ⊤, ⊤, (⊤, ⊤)⟩

/-- DStarNode.__eq__: coordinates rounded to 6 decimals compare equal. -/
def dnodeEq (a b : DNode) : Bool :=
  roundDp 6 a.lat = roundDp 6 b.lat ∧ roundDp 6 a.lon = roundDp 6 b.lon

/-- Python tuple order on priority keys (DStarNode.__lt__). -/
def keyLt (k l : Val × Val) : Bool :=
  decide (k.1 < l.1) || (decide (k.1 = l.1) && decide (k.2 < l.2))

/-- Planner state.  Python objects are identified with their index in the
arena; the start node is index 0 and the goal node index 1; the nodes dict
maps coordinate keys (raw for start and goal, 6-decimal-rounded for created
neighbors) to arena indices, and the open list holds arena indices ordered as
a CPython heap. -/
structure DState where
  arena : List DNode
  dict : List (Coord × Nat)
  openList : List Nat

/-- Dereference an arena index (indices are always in range in every run). -/
def DState.nodeAt (s : DState) (i : Nat) : DNode := s.arena.getD i (mkNode 0 0)

/-- The raw coordinates of the node object at an index. -/
def latLonAt (s : DState) (i : Nat) : Coord := ((s.nodeAt i).lat, (s.nodeAt i).lon)

/-- Mutate the node object at an index. -/
def writeNode (s : DState) (i : Nat) (n : DNode) : DState :=
  { s with arena := s.arena.set i n }

/-- Python dict lookup. -/
def dictFind (s : DState) (k : Coord) : Option Nat :=
  (s.dict.find? (fun e => e.1 == k)).map (·.2)

/-- Python dict assignment (replace in place or append). -/
def dictInsert : List (Coord × Nat) → Coord → Nat → List (Coord × Nat)
  | [], k, v => [(k, v)]
  | e :: es, k, v => if e.1 = k then (k, v) :: es else e :: dictInsert es k v

/-- The comparison the open heap uses: stored keys of the node objects. -/
def openLt (s : DState) (a b : Nat) : Bool := keyLt (s.nodeAt a).key (s.nodeAt b).key

/-- DStar._heuristic = DStar._get_edge_cost: planar distance times 60 nm per
degree, with math.sqrt as the sq parameter. -/
def heuristic (sq : ℚ → ℚ) (a b : DNode) : ℚ :=
  sq ((a.lat - b.lat) ^ 2 + (a.lon - b.lon) ^ 2) * 60

/-- DStar._calculate_key. -/
def calculate_key (sq : ℚ → ℚ) (s : DState) (i : Nat) : Val × Val :=
  let n := s.nodeAt i
  let h := heuristic sq n (s.nodeAt 1)
  (min n.g n.rhs + (h : Val), min n.g n.rhs)

/-- The 8 directions in source order. -/
def directions : List (ℤ × ℤ) :=
  [(-1, -1), (-1, 0), (-1, 1), (0, -1), (0, 1), (1, -1), (1, 0), (1, 1)]

/-- DStar._get_neighbors: 8 neighbors at step_size_deg, bounds-checked against
the Indian Ocean box, land-checked, resolved through the nodes dict by their
6-decimal-rounded key, lazily creating missing node objects. -/
def get_neighbors (stepDeg : ℚ) (s : DState) (i : Nat) : List Nat × DState :=
  let node := s.nodeAt i
  directions.foldl
    (fun (acc : List Nat × DState) d =>
      let newLat := node.lat + (d.1 : ℚ) * stepDeg
      let newLon := node.lon + (d.2 : ℚ) * stepDeg
      if -60 ≤ newLat ∧ newLat ≤ 30 ∧ 20 ≤ newLon ∧ newLon ≤ 120 then
        if is_point_on_land newLat newLon then acc
        else
          let key := (roundDp 6 newLat, roundDp 6 newLon)
          match dictFind acc.2 key with
          | some j => (acc.1 ++ [j], acc.2)
          | none =>
            let j := acc.2.arena.length
            (acc.1 ++ [j],
              { arena := acc.2.arena ++ [mkNode newLat newLon],
                dict := dictInsert acc.2.dict key j,
                openList := acc.2.openList })
      else acc)
    ([], s)

/-- DStar._update_node: reheapify on key change in the open list, push a newly
inconsistent node, or remove a now-consistent node (Python list.remove drops
the first __eq__ match) and reheapify. -/
def update_node (sq : ℚ → ℚ) (s : DState) (i : Nat) : DState :=
  let n := s.nodeAt i
  let memberOpen := s.openList.any fun j => dnodeEq (s.nodeAt j) n
  if ¬(n.g = n.rhs) ∧ memberOpen then
    let s1 := writeNode s i { n with key := calculate_key sq s i }
    { s1 with openList := Heapq.heapify (openLt s1) s1.openList }
  else if ¬(n.g = n.rhs) ∧ ¬memberOpen then
    let s1 := writeNode s i { n with key := calculate_key sq s i }
    { s1 with openList := Heapq.heappush (openLt s1) s1.openList i }
  else if n.g = n.rhs ∧ memberOpen then
    let s1 := { s with openList :=
      Heapq.removeFirst (fun a b => dnodeEq (s.nodeAt a) (s.nodeAt b)) i s.openList }
    { s1 with openList := Heapq.heapify (openLt s1) s1.openList }
  else s

/-- The body of the compute-shortest-path loop: pop the minimum node and apply
the overconsistent or underconsistent update. -/
def computeBody (sq : ℚ → ℚ) (stepDeg : ℚ) (s : DState) : DState :=
  match Heapq.heappop (openLt s) s.openList with
  | none => s
  | some (cur, openRest) =>
    let s0 : DState := { s with openList := openRest }
    let n := s0.nodeAt cur
    if n.rhs < n.g then
      let s1 := writeNode s0 cur { n with g := n.rhs }
      let r := get_neighbors stepDeg s1 cur
      r.1.foldl
        (fun st j =>
          let st1 :=
            if ¬ dnodeEq (st.nodeAt j) (st.nodeAt 0) then
              let cost := heuristic sq (st.nodeAt cur) (st.nodeAt j)
              writeNode st j
                { st.nodeAt j with
                  rhs := min (st.nodeAt j).rhs ((st.nodeAt cur).g + (cost : Val)) }
            else st
          update_node sq st1 j)
        r.2
    else
      let oldG := n.g
      let s1 := writeNode s0 cur { n with g := ⊤ }
      let s2 :=
        if ¬ dnodeEq (s1.nodeAt cur) (s1.nodeAt 0) then
          let r := get_neighbors stepDeg s1 cur
          let minCost := r.1.foldl
            (fun m j =>
              let c := (r.2.nodeAt j).g + ((heuristic sq (r.2.nodeAt cur) (r.2.nodeAt j) : ℚ) : Val)
              if c < m then c else m)
            (⊤ : Val)
          writeNode r.2 cur { r.2.nodeAt cur with rhs := minCost }
        else s1
      let s3 := update_node sq s2 cur
      let r2 := get_neighbors stepDeg s3 cur
      r2.1.foldl
        (fun st j =>
          let st1 :=
            if (st.nodeAt j).rhs =
                  oldG + ((heuristic sq (st.nodeAt cur) (st.nodeAt j) : ℚ) : Val) ∧
                ¬ dnodeEq (st.nodeAt j) (st.nodeAt 0) then
              let r3 := get_neighbors stepDeg st j
              let minCost := r3.1.foldl
                (fun m k =>
                  let c := (r3.2.nodeAt k).g +
                    ((heuristic sq (r3.2.nodeAt j) (r3.2.nodeAt k) : ℚ) : Val)
                  if c < m then c else m)
                (⊤ : Val)
              writeNode r3.2 j { r3.2.nodeAt j with rhs := minCost }
            else st
          update_node sq st1 j)
        r2.2

/-- DStar._compute_shortest_path: run the loop while the open list is nonempty
and the goal is worse than the minimum key or locally inconsistent, for at
most max_iterations steps (the fuel). -/
def computeGo (sq : ℚ → ℚ) (stepDeg : ℚ) : Nat → DState → DState
  | 0, s => s
  | fuel + 1, s =>
    match s.openList.head? with
    | none => s
    | some h =>
      if keyLt (s.nodeAt h).key (calculate_key sq s 1) ∨
          ¬((s.nodeAt 1).rhs = (s.nodeAt 1).g) then
        computeGo sq stepDeg fuel (computeBody sq stepDeg s)
      else s

/-- DStar.__init__: start (index 0) with rhs 0 and its key, pushed on the open
list; both endpoints entered into the nodes dict under their raw coordinates
(the second insert overwrites the first when they coincide exactly). -/
def initState (sq : ℚ → ℚ) (start goal : Coord) : DState :=
  let s0 : DState :=
    { arena := [{ mkNode start.1 start.2 with rhs := 0 }, mkNode goal.1 goal.2],
      dict := [], openList := [] }
  let s1 := writeNode s0 0 { s0.nodeAt 0 with key := calculate_key sq s0 0 }
  let s2 := { s1 with openList := Heapq.heappush (openLt s1) s1.openList 0 }
  { s2 with dict := dictInsert (dictInsert s2.dict (start.1, start.2) 0) (goal.1, goal.2) 1 }

/-- The best-predecessor choice of the path extraction: the first neighbor
strictly minimizing g + edge cost (cost < best_cost starting from inf). -/
def chooseBestPred (sq : ℚ → ℚ) (s : DState) (nbrs : List Nat) (cur : Nat) : Option Nat :=
  (nbrs.foldl
    (fun (acc : Option Nat × Val) j =>
      let cost := (s.nodeAt j).g + ((heuristic sq (s.nodeAt j) (s.nodeAt cur) : ℚ) : Val)
      if cost < acc.2 then (some j, cost) else acc)
    (none, ⊤)).1

/-- The path-extraction loop shared by plan and replan: walk best predecessors
from the goal, capped at 1000 path vertices, append the start and reverse.
The loop guard compares node objects by their rounded coordinates; the
structural fuel is instantiated with 1001, which the 1000-vertex cap makes
sufficient (the fuel-exhausted fallback is unreachable). -/
def extractGo (sq : ℚ → ℚ) (stepDeg : ℚ) :
    Nat → DState → Nat → List Coord → List Coord × DState
  | 0, s, _, acc => ((acc ++ [((s.nodeAt 0).lat, (s.nodeAt 0).lon)]).reverse, s)
  | fuel + 1, s, cur, acc =>
    if dnodeEq (s.nodeAt cur) (s.nodeAt 0) = false ∧ acc.length < 1000 then
      let acc1 := acc ++ [((s.nodeAt cur).lat, (s.nodeAt cur).lon)]
      let r := get_neighbors stepDeg s cur
      match chooseBestPred sq r.2 r.1 cur with
      | none => ((acc1 ++ [((r.2.nodeAt 0).lat, (r.2.nodeAt 0).lon)]).reverse, r.2)
      | some p => extractGo sq stepDeg fuel r.2 p acc1
    else ((acc ++ [((s.nodeAt 0).lat, (s.nodeAt 0).lon)]).reverse, s)

/-- DStar.plan: compute the shortest path, return the empty polyline when the
goal g remains infinite, otherwise extract the path from the goal. -/
def plan (sq : ℚ → ℚ) (start goal : Coord) (stepSizeNm : ℚ) (maxIterations : Nat) :
    List Coord × DState :=
  let stepDeg := stepSizeNm / 60
  let s1 := computeGo sq stepDeg maxIterations (initState sq start goal)
  if (s1.nodeAt 1).g < (⊤ : Val) then extractGo sq stepDeg 1001 s1 1 []
  else ([], s1)

/-- DStar.replan on an existing planner state: recompute the rhs of the
neighbors of every known changed node, rerun the compute loop and extract
(changed_cells is write-only in the source and has no model). -/
def replan (sq : ℚ → ℚ) (stepDeg : ℚ) (maxIterations : Nat) (changed : List Coord)
    (s : DState) : List Coord × DState :=
  let s1 := changed.foldl
    (fun st c =>
      let key := (roundDp 6 c.1, roundDp 6 c.2)
      match dictFind st key with
      | none => st
      | some i =>
        let r := get_neighbors stepDeg st i
        r.1.foldl
          (fun st2 j =>
            let st3 :=
              if ¬ dnodeEq (st2.nodeAt j) (st2.nodeAt 0) then
                let r2 := get_neighbors stepDeg st2 j
                let minCost := r2.1.foldl
                  (fun m k =>
                    let c2 := (r2.2.nodeAt k).g +
                      ((heuristic sq (r2.2.nodeAt j) (r2.2.nodeAt k) : ℚ) : Val)
                    if c2 < m then c2 else m)
                  (⊤ : Val)
                writeNode r2.2 j { r2.2.nodeAt j with rhs := minCost }
              else st2
            update_node sq st3 j)
          r.2)
    s
  let s2 := computeGo sq stepDeg maxIterations s1
  if (s2.nodeAt 1).g < (⊤ : Val) then extractGo sq stepDeg 1001 s2 1 []
  else ([], s2)

/-- Coordinate and arena preservation between states: indices stay valid and
their raw coordinates never change. -/
def Preserves (s t : DState) : Prop :=
  s.arena.length ≤ t.arena.length ∧
  ∀ i, i < s.arena.length → latLonAt t i = latLonAt s i

/-- The invariant protecting the goal node (arena index 1) when start and
goal round to the same 6-decimal key: its g and rhs stay infinite and it
never enters the open list. -/
def GoalShielded (start goal : Coord) (s : DState) : Prop :=
  latLonAt s 0 = start ∧ latLonAt s 1 = goal ∧ 2 ≤ s.arena.length ∧
  (s.nodeAt 1).g = ⊤ ∧ (s.nodeAt 1).rhs = ⊤ ∧ ∀ j ∈ s.openList, j ≠ 1

/-- Same 6-decimal rounded key for both endpoints (the DStarNode.__eq__
collision that makes the goal object indistinguishable from the start). -/
def RoundEq (start goal : Coord) : Prop :=
  roundDp 6 start.1 = roundDp 6 goal.1 ∧ roundDp 6 start.2 = roundDp 6 goal.2

/-- The coordinate skeleton of the planner state: the endpoint node objects
sit at indices 0 and 1 and keep their construction coordinates. -/
def CoordsOK (start goal : Coord) (s : DState) : Prop :=
  latLonAt s 0 = start ∧ latLonAt s 1 = goal ∧ 2 ≤ s.arena.length

/-- The invariant of every reachable planner state: the endpoint objects keep
their coordinates, and when the two endpoints collide under the 6-decimal
rounding the goal object stays shielded from every update. -/
def DStarInv (start goal : Coord) (s : DState) : Prop :=
  CoordsOK start goal s ∧ (RoundEq start goal → GoalShielded start goal s)

/-- The path extraction only creates neighbor objects: the arena grows by a
suffix. -/
def ArenaExt (s t : DState) : Prop := ∃ l, t.arena = s.arena ++ l

/-- The route endpoint specification of the claim, for one plan or replan
result: the polyline is empty exactly when the goal g is still infinite, and
a non-empty polyline starts at the start coordinate and ends at the goal
coordinate. -/
def EndpointSpec (start goal : Coord) (r : List Coord × DState) : Prop :=
  (r.1 = [] ↔ ((r.2).nodeAt 1).g = ⊤) ∧
  (r.1 ≠ [] → r.1.head? = some start ∧ r.1.getLast? = some goal)

end DStar

end ShipRouting


namespace ShipRouting

namespace RouteCalculator

open LandDetection

/-- plan_route's OFFSHORE_PORTS table: port coordinates and their offshore
water replacements. -/
def OFFSHORE_PORTS : List (Coord × Coord) :=
  [((19.076, 72.877), (18.9, 72.8)),
   ((13.194, 80.282), (13.0, 80.3)),
   ((22.572, 88.364), (21.5, 88.0))]

/-- The for-loop of plan_route over OFFSHORE_PORTS replacing a near-port
endpoint by its offshore coordinates (later iterations compare against the
already-replaced point, as in the source). -/
def snapPort (p : Coord) : Coord :=
  OFFSHORE_PORTS.foldl
    (fun q e => if |q.1 - e.1.1| < 0.2 ∧ |q.2 - e.1.2| < 0.2 then e.2 else q) p

/-- The any-test against the offshore values deciding whether _snap_to_water
still runs on the endpoint. -/
def nearOffshore (p : Coord) : Bool :=
  OFFSHORE_PORTS.any (fun e => decide (|p.1 - e.2.1| < 0.2) && decide (|p.2 - e.2.2| < 0.2))

/-- ShipRouteCalculator._snap_to_water: offshore line search away from the
coast (westward below longitude 76, eastward otherwise, 19 steps of 0.05
degrees), then a growing 8-direction grid search, returning the original
point when every candidate is on land. -/
def snap_to_water (lat lon : ℚ) : Coord :=
  if ¬ is_point_on_land lat lon then (lat, lon)
  else
    let offsetOf : Nat → ℚ := fun i =>
      (if lon < 76 then -(0.05 : ℚ) else 0.05) * (i : ℚ)
    match (List.range' 1 19).find? (fun i => ! is_point_on_land lat (lon + offsetOf i)) with
    | some i => (lat, lon + offsetOf i)
    | none =>
      let dirs : List (ℤ × ℤ) :=
        [(0, 1), (0, -1), (1, 0), (-1, 0), (1, 1), (1, -1), (-1, 1), (-1, -1)]
      let cands := ([0.1, 0.2, 0.3, 0.5, 0.7, 1.0] : List ℚ).bind (fun r =>
        dirs.map (fun d => (lat + (d.1 : ℚ) * r, lon + (d.2 : ℚ) * r)))
      match cands.find? (fun c => ! is_point_on_land c.1 c.2) with
      | some c => c
      | none => (lat, lon)

/-- The endpoint snapping of plan_route: offshore-port replacement, then
_snap_to_water unless the point now sits within 0.2 degrees of a known
offshore value. -/
def snapped (p : Coord) : Coord :=
  let q := snapPort p
  if nearOffshore q then q else snap_to_water q.1 q.2

/-- The straight-line route distance of plan_route in nautical miles (planar
degrees times 60), with math.sqrt passed as the oracle sq. -/
def routeDistNm (sq : ℚ → ℚ) (s e : Coord) : ℚ :=
  sq ((e.1 - s.1) ^ 2 + (e.2 - s.2) ^ 2) * 60

/-- The adaptive (max_iterations, step_size_nm) choice of plan_route. -/
def adaptiveParams (dist : ℚ) : Nat × ℚ :=
  if dist < 500 then (400, 10)
  else if dist < 1000 then (300, 20)
  else if dist < 2000 then (200, 25)
  else (150, 30)

/-- ShipRouteCalculator.interpolate_route: linear interpolation with
max(2, num_points/(n-1)) segments between consecutive waypoints. -/
def interpolate_route (waypoints : List Coord) (numPoints : Nat) : List Coord :=
  if waypoints.length < 2 then waypoints
  else
    let segments := max 2 (numPoints / (waypoints.length - 1))
    (waypoints.zip (waypoints.drop 1)).foldl
      (fun acc pq =>
        (acc ++ (List.range' 1 (segments - 1)).map (fun j =>
          let ratio : ℚ := (j : ℚ) / (segments : ℚ)
          (pq.1.1 + (pq.2.1 - pq.1.1) * ratio, pq.1.2 + (pq.2.2 - pq.1.2) * ratio))) ++
        [pq.2])
      (waypoints.take 1)

/-- ShipRouteCalculator.plan_route through the planner chain to the returned
polyline (the fuel, weather and response assembly below it consume the
polyline unchanged): snap both endpoints, pick adaptive parameters from the
straight-line distance, run the hybrid bidirectional planner, fall back to
D* with half the iteration budget when it returns fewer than 2 waypoints,
raise (Except.error, for ValueError) when both fail, else interpolate to
about 100 points.  The oracle parameters are those of the planners: sq for
math.sqrt, month and gwp for the hybrid hazard date and global water
sampler, rng for the ambient random stream, hvDistNm for the hybrid's
haversine goal-bias distance. -/
def plan_route (sq : ℚ → ℚ) (month : Nat) (gwp : Nat → Coord × Nat) (rng : Nat → ℚ)
    (hvDistNm : ℚ) (startLat startLon endLat endLon : ℚ) :
    Except String (List Coord) :=
  let s1 := snapped (startLat, startLon)
  let e1 := snapped (endLat, endLon)
  let ps := adaptiveParams (routeDistNm sq s1 e1)
  let waypoints := Hybrid.plan sq month gwp rng hvDistNm s1 e1 ps.1 ps.2
  let waypoints2 :=
    if waypoints.length < 2 then (DStar.plan sq s1 e1 ps.2 (ps.1 / 2)).1
    else waypoints
  if waypoints2.length < 2 then
    Except.error "No valid water-only route found by RRT* or D*. Please check port coordinates or try alternative ports."
  else
    let interp := interpolate_route waypoints2 100
    if interp.length < 2 then
      Except.error "Interpolation failed: No valid water-only route."
    else Except.ok interp

end RouteCalculator

end ShipRouting

/-! ## Theorems -/

namespace ShipRouting

open LandDetection

/-- Helper: membership in the Python range(1, n) sample index list. -/
theorem mem_sampleRange {k n : Nat} :
    k ∈ List.range' 1 (n - 1) ↔ 1 ≤ k ∧ k ≤ n - 1 := by
  simp only [List.mem_range']
  constructor
  · rintro ⟨i, hi, rfl⟩; omega
  · rintro ⟨h1, h2⟩; exact ⟨k - 1, by omega, by omega⟩

/-- C2.  With the default 50 samples, line_crosses_land is true iff one of the
endpoints is on land or one of the 49 equally spaced interior samples, at
parameters k/50 for k in 1..49, is on land. -/
theorem line_crosses_land_iff (lat1 lon1 lat2 lon2 : ℚ) :
    line_crosses_land lat1 lon1 lat2 lon2 50 = true ↔
      is_point_on_land lat1 lon1 = true ∨ is_point_on_land lat2 lon2 = true ∨
      ∃ k : ℕ, 1 ≤ k ∧ k ≤ 49 ∧
        is_point_on_land (lat1 + ((k : ℚ) / 50) * (lat2 - lat1))
          (lon1 + ((k : ℚ) / 50) * (lon2 - lon1)) = true := by
  unfold line_crosses_land
  split
  · next h => simp [h]
  · next h =>
    split
    · next h2 => simp [h, h2]
    · next h2 =>
      simp only [List.any_eq_true, Bool.not_eq_true] at *
      constructor
      · rintro ⟨k, hk, hland⟩
        have := mem_sampleRange.1 hk
        exact Or.inr (Or.inr ⟨k, this.1, by omega, hland⟩)
      · rintro (h1 | h2 | ⟨k, hk1, hk2, hland⟩)
        · simp_all
        · simp_all
        · exact ⟨k, mem_sampleRange.2 ⟨hk1, by omega⟩, hland⟩

/-- C7 counterexample.  The point (5.5, 80.5) lies exactly on the closed
horizontal edge of the sri_lanka polygon between consecutive vertices
(5.5, 81) and (5.5, 80) — it is their midpoint — yet ray casting classifies
it as outside and on_land is false, so edge points are not inclusive. -/
theorem point_on_edge_not_inside :
    sri_lanka.get? 4 = some (5.5, 81) ∧ sri_lanka.get? 5 = some (5.5, 80) ∧
    ((5.5 : ℚ), (80.5 : ℚ)) = ((5.5 + 5.5) / 2, (81 + 80) / 2) ∧
    point_in_polygon (5.5, 80.5) sri_lanka = false ∧
    is_point_on_land 5.5 80.5 = false := by
  refine ⟨by decide, by decide, by decide, by decide, by decide⟩

/-- C7 amended.  The ray-casting tie-break is lower-vertex-exclusive and
upper-vertex-inclusive in latitude, and horizontal edges never contribute a
crossing: every toggling edge satisfies min lat < lat <= max lat with distinct
vertex latitudes.  Consequently edge points are not uniformly inside: the point
(5.5, 80.5) on the horizontal bottom edge of sri_lanka is classified outside
(see the counterexample), while the point (6.2, 81.5) on its vertical eastern
edge between the consecutive vertices (6.5, 81.5) and (6, 81.5) is classified
inside. -/
theorem edge_classification :
    (sri_lanka.get? 2 = some (6.5, 81.5) ∧ sri_lanka.get? 3 = some (6, 81.5) ∧
      (6 : ℚ) ≤ 6.2 ∧ (6.2 : ℚ) ≤ 6.5 ∧
      point_in_polygon (6.2, 81.5) sri_lanka = true ∧
      is_point_on_land 6.2 81.5 = true) ∧
    ∀ (lat lon : ℚ) (p1 p2 : Coord), edgeCrosses lat lon p1 p2 = true →
      p1.1 ≠ p2.1 ∧ min p1.1 p2.1 < lat ∧ lat ≤ max p1.1 p2.1 := by
  constructor
  · exact ⟨by decide, by decide, by decide, by decide, by decide, by decide⟩
  · intro lat lon p1 p2 h
    unfold edgeCrosses at h
    split at h
    case isFalse => simp at h
    case isTrue h1 =>
      split at h
      case isFalse => simp at h
      case isTrue h2 =>
        split at h
        case isFalse => simp at h
        case isTrue h3 =>
          refine ⟨?_, h1, h2⟩
          intro hlat
          split at h
          · rw [hlat] at h1 h2
            simp at h1 h2
            exact absurd h2 (not_le.mpr h1)
          · split at h
            · next h5 => exact h5 hlat
            · simp at h



/-- Witness for the edge classification theorem, applied to the concrete edge
from (7, 81) to (6.5, 81.5) of sri_lanka at the interior point (6.7, 81.2). -/
theorem edge_classification_witness :
    (7 : ℚ) ≠ 6.5 ∧ min (7 : ℚ) 6.5 < 6.7 ∧ (6.7 : ℚ) ≤ max (7 : ℚ) 6.5 :=
  edge_classification.2 6.7 81.2 (7, 81) (6.5, 81.5) (by decide)


namespace FuelModel

/-- C5 counterexample.  For container_10000 over 5000 nm with weather and load
factors 1, the voyage fuel quotient fuel(19 kt) / fuel(10 kt) computed by
estimate_voyage_fuel is about 3.61 (total fuel over a fixed distance scales
with the square of the speed, not its cube), so the claimed lower bound 4.5
fails. -/
theorem speed_fuel_quotient_below_claim :
    ¬(9/2 ≤ (estimate_voyage_fuel container_10000 5000 19 1 1).totalFuelTons /
        (estimate_voyage_fuel container_10000 5000 10 1 1).totalFuelTons) := by
  decide

/-- C5 amended.  For container_10000 over 5000 nm with weather and load factors
1, the voyage fuel quotient fuel(19 kt) / fuel(10 kt) lies between 3.5 and
4.0. -/
theorem speed_fuel_quotient_bounds :
    7/2 ≤ (estimate_voyage_fuel container_10000 5000 19 1 1).totalFuelTons /
        (estimate_voyage_fuel container_10000 5000 10 1 1).totalFuelTons ∧
    (estimate_voyage_fuel container_10000 5000 19 1 1).totalFuelTons /
        (estimate_voyage_fuel container_10000 5000 10 1 1).totalFuelTons ≤ 4 := by
  exact ⟨by decide, by decide⟩

/-- C6 counterexample.  At speed 10 kt (design 19 kt), distance 5000 nm,
weather and load 1, the total fuel returned by estimate_voyage_fuel differs
from daily-formula times voyage-days, because the code multiplies the
2-decimal-rounded daily consumption (32.07 instead of 220 times (10/19)^3 =
32.0746...) by the voyage days. -/
theorem voyage_fuel_not_formula_product :
    (estimate_voyage_fuel container_10000 5000 10 1 1).totalFuelTons ≠
      220 * ((10 : ℚ) / 19) ^ 3 * (0.6 + 0.4 * 1) * 1 * (5000 / 10 / 24) := by
  decide

/-- C6 amended.  For positive speed: the voyage time in hours is d / v; the
internal daily consumption equals F_base (v/V_d)^3 (0.6 + 0.4 L) W; the total
fuel equals that daily consumption rounded to 2 decimals times the voyage time
in days; and the total CO2 equals the daily CO2 (daily times 3.17, rounded to
2 decimals) times the voyage time in days. -/
theorem voyage_fuel_formula (spec : VesselSpec) (d v w l : ℚ) (hv : 0 < v) :
    (estimate_voyage_fuel spec d v w l).voyageTimeHours = d / v ∧
    (estimate_voyage_fuel spec d v w l).voyageTimeDays = d / v / 24 ∧
    (calculate_fuel_consumption spec v w l).weatherIncreasedConsumption =
      spec.nominalFuelConsumptionTPerDay * (v / spec.designSpeedKnots) ^ 3 *
        (0.6 + 0.4 * l) * w ∧
    (estimate_voyage_fuel spec d v w l).totalFuelTons =
      roundDp 2 (spec.nominalFuelConsumptionTPerDay * (v / spec.designSpeedKnots) ^ 3 *
        (0.6 + 0.4 * l) * w) * (d / v / 24) ∧
    (estimate_voyage_fuel spec d v w l).totalCo2Tons =
      roundDp 2 (spec.nominalFuelConsumptionTPerDay * (v / spec.designSpeedKnots) ^ 3 *
        (0.6 + 0.4 * l) * w * 3.17) * (d / v / 24) := by
  refine ⟨?_, ?_, rfl, ?_, ?_⟩ <;>
    simp [estimate_voyage_fuel, calculate_fuel_consumption, if_pos hv]

/-- C6 amended witness: the formula instantiated at container_10000, 5000 nm,
19 kt, weather 1, load 1. -/
theorem voyage_fuel_formula_witness :
    (0 : ℚ) < 19 ∧
    (estimate_voyage_fuel container_10000 5000 19 1 1).voyageTimeHours = 5000 / 19 :=
  ⟨by norm_num, (voyage_fuel_formula container_10000 5000 19 1 1 (by norm_num)).1⟩

/-- C10.  estimate_voyage_fuel is total at zero speed: the division is guarded
and the voyage time, total fuel and total CO2 are all 0. -/
theorem zero_speed_voyage (spec : VesselSpec) (d w l : ℚ) :
    (estimate_voyage_fuel spec d 0 w l).voyageTimeHours = 0 ∧
    (estimate_voyage_fuel spec d 0 w l).totalFuelTons = 0 ∧
    (estimate_voyage_fuel spec d 0 w l).totalCo2Tons = 0 := by
  refine ⟨?_, ?_, ?_⟩ <;> simp [estimate_voyage_fuel, calculate_fuel_consumption]

end FuelModel

namespace OceanGridModel

/-- C4 (code bug).  Applying the traffic-separation overlays to the WATER cell
at the Suez lane center sets its cost to COST_MULTIPLIERS[HAZARD] * 0.8 = 2.0,
which is strictly greater than 1 — the overlay makes the lane more expensive
than plain water (cost 1), although the spec and the docstring of
add_traffic_separation_schemes promise a preferred lane with lower cost. -/
theorem tss_overlay_raises_cost :
    (add_traffic_separation_schemes ratSqrt suezWaterCell).cost = (2 : WithTop ℚ) ∧
    (add_traffic_separation_schemes ratSqrt suezWaterCell).cellType = .HAZARD ∧
    ¬((add_traffic_separation_schemes ratSqrt suezWaterCell).cost < 1) ∧
    (1 : WithTop ℚ) < 2 := by
  exact ⟨by decide, by decide, by decide, by decide⟩

end OceanGridModel

namespace Heapq

theorem mem_siftdownGo {lt : α → α → Bool} {newitem : α} {startpos : Nat} {x : α} :
    ∀ {fuel pos : Nat} {heap : List α},
    x ∈ siftdownGo lt newitem startpos fuel pos heap → x ∈ heap ∨ x = newitem := by
  intro fuel
  induction fuel with
  | zero =>
    intro pos heap h
    exact (List.mem_or_eq_of_mem_set h).imp_left id
  | succ n ih =>
    intro pos heap h
    rw [siftdownGo] at h
    split at h
    · rcases hget : heap.get? ((pos - 1) / 2) with _ | parent <;>
        simp only [hget] at h
      · exact (List.mem_or_eq_of_mem_set h).imp_left id
      · split at h
        · rcases ih h with h2 | h2
          · rcases List.mem_or_eq_of_mem_set h2 with h3 | h3
            · exact Or.inl h3
            · exact Or.inl (h3 ▸ List.get?_mem hget)
          · exact Or.inr h2
        · exact (List.mem_or_eq_of_mem_set h).imp_left id
    · exact (List.mem_or_eq_of_mem_set h).imp_left id

theorem mem_siftdown {lt : α → α → Bool} {startpos pos : Nat} {heap : List α}
    {x : α} (h : x ∈ siftdown lt startpos pos heap) : x ∈ heap := by
  unfold siftdown at h
  rcases hg : heap.get? pos with _ | newitem <;> rw [hg] at h
  · exact h
  · rcases mem_siftdownGo h with h2 | h2
    · exact h2
    · exact h2 ▸ List.get?_mem hg

theorem getD_mem_or {l : List α} {n : Nat} {d : α} :
    l.getD n d ∈ l ∨ l.getD n d = d := by
  rw [List.getD_eq_getElem?_getD]
  rcases hg : l[n]? with _ | y
  · simp
  · exact Or.inl (by simpa using List.getElem?_mem hg)

theorem mem_siftupGo {lt : α → α → Bool} {endpos startpos : Nat} {newitem : α}
    {x : α} : ∀ {fuel pos : Nat} {heap : List α},
    x ∈ siftupGo lt endpos startpos newitem fuel pos heap → x ∈ heap ∨ x = newitem := by
  intro fuel
  induction fuel with
  | zero =>
    intro pos heap h
    exact (List.mem_or_eq_of_mem_set (mem_siftdown h)).imp_left id
  | succ n ih =>
    intro pos heap h
    rw [siftupGo] at h
    split at h
    · rcases ih h with h2 | h2
      · rcases List.mem_or_eq_of_mem_set h2 with h3 | h3
        · exact Or.inl h3
        · rw [h3]
          exact getD_mem_or
      · exact Or.inr h2
    · exact (List.mem_or_eq_of_mem_set (mem_siftdown h)).imp_left id

theorem mem_siftup {lt : α → α → Bool} {pos : Nat} {heap : List α} {x : α}
    (h : x ∈ siftup lt pos heap) : x ∈ heap := by
  unfold siftup at h
  rcases hg : heap.get? pos with _ | newitem <;> rw [hg] at h
  · exact h
  · rcases mem_siftupGo h with h2 | h2
    · exact h2
    · exact h2 ▸ List.get?_mem hg

theorem mem_heappush {lt : α → α → Bool} {heap : List α} {item x : α}
    (h : x ∈ heappush lt heap item) : x ∈ heap ∨ x = item := by
  unfold heappush at h
  rcases List.mem_append.1 (mem_siftdown h) with h2 | h2
  · exact Or.inl h2
  · exact Or.inr (List.mem_singleton.1 h2)

theorem mem_heapify {lt : α → α → Bool} {heap : List α} {x : α}
    (h : x ∈ heapify lt heap) : x ∈ heap := by
  unfold heapify at h
  generalize hn : heap.length / 2 = n at h
  clear hn
  induction n generalizing heap with
  | zero => exact h
  | succ i ih => exact mem_siftup (ih h)

theorem mem_of_getLast? {l : List α} {a : α} (h : l.getLast? = some a) :
    a ∈ l := by
  cases l with
  | nil => simp at h
  | cons b bs =>
    rw [List.getLast?_eq_getLast _ (by simp)] at h
    obtain rfl : (b :: bs).getLast (by simp) = a := by simpa using h
    exact List.getLast_mem _

theorem mem_of_head? {l : List α} {a : α} (h : l.head? = some a) : a ∈ l := by
  cases l with
  | nil => simp at h
  | cons b bs =>
    obtain rfl : b = a := by simpa using h
    exact List.mem_cons_self b bs

theorem mem_of_mem_dropLast {l : List α} {a : α} (h : a ∈ l.dropLast) :
    a ∈ l := by
  rw [List.dropLast_eq_take] at h
  exact List.take_subset _ _ h

theorem heappop_mem {lt : α → α → Bool} {heap rest : List α} {r x : α}
    (h : heappop lt heap = some (r, rest)) :
    r ∈ heap ∧ (x ∈ rest → x ∈ heap) := by
  unfold heappop at h
  rcases hl : heap.getLast? with _ | lastelt <;> rw [hl] at h
  · exact absurd h (by simp)
  · have hlast : lastelt ∈ heap := mem_of_getLast? hl
    rcases hh : heap.dropLast.head? with _ | returnitem <;> rw [hh] at h
    · simp only [Option.some.injEq, Prod.mk.injEq] at h
      refine ⟨h.1 ▸ hlast, fun hx => ?_⟩
      rw [← h.2] at hx
      exact absurd hx (List.not_mem_nil x)
    · simp only [Option.some.injEq, Prod.mk.injEq] at h
      have hret : returnitem ∈ heap :=
        mem_of_mem_dropLast (mem_of_head? hh)
      refine ⟨h.1 ▸ hret, fun hx => ?_⟩
      rw [← h.2] at hx
      rcases List.mem_or_eq_of_mem_set (mem_siftup hx) with h2 | h2
      · exact mem_of_mem_dropLast h2
      · exact h2 ▸ hlast

theorem mem_removeFirst {eqb : α → α → Bool} {y x : α} :
    ∀ {l : List α}, x ∈ removeFirst eqb y l → x ∈ l := by
  intro l h
  induction l with
  | nil => exact h
  | cons a as ih =>
    rw [removeFirst] at h
    split at h
    · exact List.mem_cons_of_mem a h
    · rcases List.mem_cons.1 h with h2 | h2
      · exact h2 ▸ List.mem_cons_self a as
      · exact List.mem_cons_of_mem a (ih h2)

end Heapq


namespace MaritimeAStar

open LandDetection

/-- Points stored in the A* water grid are 2-decimal roundings of lattice
points that passed the is_point_on_land check. -/
theorem build_water_grid_sound (minLat maxLat minLon maxLon res : ℚ) (p : Coord)
    (hp : p ∈ build_water_grid minLat maxLat minLon maxLon res) :
    ∃ lat lon, p = (roundDp 2 lat, roundDp 2 lon) ∧ is_point_on_land lat lon = false := by
  unfold build_water_grid at hp
  simp only [List.mem_flatMap, List.mem_filterMap] at hp
  obtain ⟨lat, _, lon, _, h⟩ := hp
  refine ⟨lat, lon, ?_⟩
  split at h
  · exact absurd h (by simp)
  · next hl =>
    simp only [Bool.not_eq_true] at hl
    exact ⟨(Option.some.inj h).symm, hl⟩


set_option maxRecDepth 8000 in
set_option maxHeartbeats 16000000 in
/-- C1 counterexample.  On the degenerate instance with both endpoints deep
inside the australia polygon the A* water grid over the padded box is empty,
so MaritimeAStar.plan takes its no-solution fallback and returns the raw
[start, goal] polyline even though the start lies on land and the segment
crosses land: the route invariant fails for the grid A* planner. -/
theorem astar_fallback_on_land :
    MaritimeAStar.plan ratSqrt (-30, 100) (-30, 100.5) =
      [((-30 : ℚ), (100 : ℚ)), ((-30 : ℚ), (100.5 : ℚ))] ∧
    is_point_on_land (-30) 100 = true ∧
    line_crosses_land (-30) 100 (-30) 100.5 50 = true := by
  exact ⟨by decide, by decide, by decide⟩

end MaritimeAStar


namespace Hybrid

/-- A segment accepted by the collision check has both endpoints off land (the
check tests both endpoints explicitly after sampling the interior). -/
theorem is_collision_free_endpoints (sq : ℚ → ℚ) (lat1 lon1 lat2 lon2 : ℚ)
    (h : is_collision_free sq lat1 lon1 lat2 lon2 = true) :
    is_point_on_land lat1 lon1 = false ∧ is_point_on_land lat2 lon2 = false := by
  unfold is_collision_free at h
  split at h
  case isTrue => simp at h
  case isFalse h1 =>
    split at h
    case isTrue => simp at h
    case isFalse h2 =>
      simp only [Bool.not_eq_true] at h1 h2
      exact ⟨h1, h2⟩

end Hybrid

set_option maxRecDepth 8000 in
set_option maxHeartbeats 16000000 in
/-- C1 amended.  The planners guarantee the vertex half of the invariant at
their point checks: every A* water-grid cell is the 2-decimal rounding of a
point that passed is_point_on_land, and every segment accepted by the hybrid
planner collision check has both endpoints off land.  The invariant does not
extend further: the A* no-solution fallback returns the raw endpoints
unchecked (see the counterexample), and the sparse 2-to-15-sample collision
check is strictly weaker than crosses_land with 50 samples, witnessed by the
concrete segment (1.22, 103.59)-(1.22, 103.99), which is accepted by the
collision check yet crosses the singapore polygon. -/
theorem planner_checks_water_only :
    (∀ (minLat maxLat minLon maxLon res : ℚ) (p : Coord),
        p ∈ MaritimeAStar.build_water_grid minLat maxLat minLon maxLon res →
        ∃ lat lon, p = (roundDp 2 lat, roundDp 2 lon) ∧
          is_point_on_land lat lon = false) ∧
    (∀ (sq : ℚ → ℚ) (lat1 lon1 lat2 lon2 : ℚ),
        Hybrid.is_collision_free sq lat1 lon1 lat2 lon2 = true →
        is_point_on_land lat1 lon1 = false ∧ is_point_on_land lat2 lon2 = false) ∧
    Hybrid.is_collision_free ratSqrt 1.22 103.59 1.22 103.99 = true ∧
    line_crosses_land 1.22 103.59 1.22 103.99 50 = true :=
  ⟨MaritimeAStar.build_water_grid_sound, Hybrid.is_collision_free_endpoints,
    by decide, by decide⟩

set_option maxHeartbeats 4000000 in
/-- Witness for the amended C1 theorem: the collision-check soundness applied
to the concrete accepted water segment from (10, 60) to (10, 60.1). -/
theorem planner_checks_water_only_witness :
    Hybrid.is_collision_free ratSqrt 10 60 10 60.1 = true ∧
    is_point_on_land 10 60 = false ∧ is_point_on_land 10 60.1 = false := by
  have h : Hybrid.is_collision_free ratSqrt 10 60 10 60.1 = true := by decide
  exact ⟨h, (planner_checks_water_only.2.1 ratSqrt 10 60 10 60.1 h).1,
    (planner_checks_water_only.2.1 ratSqrt 10 60 10 60.1 h).2⟩


namespace DStar

theorem preserves_refl (s : DState) : Preserves s s := ⟨le_refl _, fun _ _ => rfl⟩

theorem preserves_trans {s t u : DState} (h1 : Preserves s t) (h2 : Preserves t u) :
    Preserves s u :=
  ⟨le_trans h1.1 h2.1, fun i hi => (h2.2 i (lt_of_lt_of_le hi h1.1)).trans (h1.2 i hi)⟩

theorem nodeAt_writeNode (s : DState) (i j : Nat) (n : DNode) :
    (writeNode s i n).nodeAt j =
      if i = j ∧ j < s.arena.length then n else s.nodeAt j := by
  unfold writeNode DState.nodeAt
  rcases eq_or_ne i j with rfl | hne
  · by_cases hj : i < s.arena.length
    · simp [List.getD_eq_getElem?_getD, List.getElem?_set_self hj, hj]
    · simp [List.getD_eq_getElem?_getD, hj, List.set_eq_of_length_le (le_of_not_lt hj)]
  · simp [List.getD_eq_getElem?_getD, List.getElem?_set_ne hne, hne]

theorem length_writeNode (s : DState) (i : Nat) (n : DNode) :
    (writeNode s i n).arena.length = s.arena.length := by
  simp [writeNode]

theorem preserves_writeNode {s : DState} {i : Nat} {n : DNode}
    (hlat : n.lat = (s.nodeAt i).lat) (hlon : n.lon = (s.nodeAt i).lon) :
    Preserves s (writeNode s i n) := by
  refine ⟨by simp [writeNode], fun j hj => ?_⟩
  unfold latLonAt
  rw [nodeAt_writeNode]
  split
  · next hc =>
    rw [hlat, hlon, hc.1]
  · rfl

theorem preserves_of_arena_eq {s t : DState} (h : t.arena = s.arena) :
    Preserves s t :=
  ⟨le_of_eq (by rw [h]), fun i _ => by unfold latLonAt DState.nodeAt; rw [h]⟩

theorem nodeAt_of_arena_append {s t : DState} {l : List DNode}
    (h : t.arena = s.arena ++ l) {i : Nat} (hi : i < s.arena.length) :
    t.nodeAt i = s.nodeAt i := by
  unfold DState.nodeAt
  rw [h]
  simp [List.getD_eq_getElem?_getD, List.getElem?_append, hi]

theorem preserves_of_arena_append {s t : DState} {l : List DNode}
    (h : t.arena = s.arena ++ l) : Preserves s t := by
  refine ⟨by simp [h], fun i hi => ?_⟩
  unfold latLonAt
  rw [nodeAt_of_arena_append h hi]

/-- Fold preservation of a predicate along List.foldl. -/
theorem foldl_pres {β : Type _} {γ : Type _} (P : β → Prop) {f : β → γ → β}
    (hf : ∀ b c, P b → P (f b c)) :
    ∀ (l : List γ) (b : β), P b → P (l.foldl f b) := by
  intro l
  induction l with
  | nil => intro b h; exact h
  | cons c cs ih => intro b h; exact ih _ (hf b c h)

/-- get_neighbors only appends fresh node objects and never alters the open
list or any existing node object. -/
theorem get_neighbors_spec (stepDeg : ℚ) (s : DState) (i : Nat) :
    ∃ l, (get_neighbors stepDeg s i).2.arena = s.arena ++ l ∧
      (get_neighbors stepDeg s i).2.openList = s.openList := by
  unfold get_neighbors
  have base : ∃ l0, (([], s) : List Nat × DState).2.arena = s.arena ++ l0 ∧
      (([], s) : List Nat × DState).2.openList = s.openList := ⟨[], by simp, rfl⟩
  refine foldl_pres
    (fun (acc : List Nat × DState) => ∃ l0, acc.2.arena = s.arena ++ l0 ∧ acc.2.openList = s.openList)
    ?_ directions ([], s) base
  intro acc d h
  obtain ⟨l0, ha, ho⟩ := h
  dsimp only
  split
  · split
    · exact ⟨l0, ha, ho⟩
    · split
      · exact ⟨l0, ha, ho⟩
      · exact ⟨l0 ++ [mkNode ((s.nodeAt i).lat + (d.1 : ℚ) * stepDeg)
            ((s.nodeAt i).lon + (d.2 : ℚ) * stepDeg)], by simp [ha], ho⟩
  · exact ⟨l0, ha, ho⟩

theorem get_neighbors_nodeAt (stepDeg : ℚ) (s : DState) (i : Nat) {j : Nat}
    (hj : j < s.arena.length) :
    (get_neighbors stepDeg s i).2.nodeAt j = s.nodeAt j := by
  obtain ⟨l, ha, _⟩ := get_neighbors_spec stepDeg s i
  exact nodeAt_of_arena_append ha hj

theorem dnodeEq_goal_start {start goal : Coord} {s : DState}
    (hre : RoundEq start goal) (hs : GoalShielded start goal s) :
    dnodeEq (s.nodeAt 1) (s.nodeAt 0) = true := by
  have h0lat : (s.nodeAt 0).lat = start.1 := congrArg Prod.fst hs.1
  have h0lon : (s.nodeAt 0).lon = start.2 := congrArg Prod.snd hs.1
  have h1lat : (s.nodeAt 1).lat = goal.1 := congrArg Prod.fst hs.2.1
  have h1lon : (s.nodeAt 1).lon = goal.2 := congrArg Prod.snd hs.2.1
  unfold dnodeEq
  rw [h0lat, h0lon, h1lat, h1lon]
  simp [hre.1, hre.2]

theorem shielded_writeNode {start goal : Coord} {s : DState} {i : Nat} {n : DNode}
    (hs : GoalShielded start goal s)
    (hlat : n.lat = (s.nodeAt i).lat) (hlon : n.lon = (s.nodeAt i).lon)
    (hg : i = 1 → n.g = ⊤ ∧ n.rhs = ⊤) :
    GoalShielded start goal (writeNode s i n) := by
  obtain ⟨c0, c1, hlen, hgt, hrt, hop⟩ := hs
  have hp := preserves_writeNode hlat hlon
  refine ⟨(hp.2 0 (by omega)).trans c0, (hp.2 1 (by omega)).trans c1,
    by rw [length_writeNode]; exact hlen, ?_, ?_, ?_⟩
  · rw [nodeAt_writeNode]
    split
    · next hc => exact (hg hc.1).1
    · exact hgt
  · rw [nodeAt_writeNode]
    split
    · next hc => exact (hg hc.1).2
    · exact hrt
  · exact hop

theorem shielded_openList {start goal : Coord} {s : DState} {o : List Nat}
    (hs : GoalShielded start goal s) (ho : ∀ j ∈ o, j ∈ s.openList ∨ j ≠ 1) :
    GoalShielded start goal { s with openList := o } := by
  obtain ⟨c0, c1, hlen, hgt, hrt, hop⟩ := hs
  exact ⟨c0, c1, hlen, hgt, hrt, fun j hj => by
    rcases ho j hj with h | h
    · exact hop j h
    · exact h⟩

theorem shielded_of_append {start goal : Coord} {s t : DState} {l : List DNode}
    (hs : GoalShielded start goal s) (ha : t.arena = s.arena ++ l)
    (ho : t.openList = s.openList) : GoalShielded start goal t := by
  obtain ⟨c0, c1, hlen, hgt, hrt, hop⟩ := hs
  have e0 := nodeAt_of_arena_append ha (show 0 < s.arena.length by omega)
  have e1 := nodeAt_of_arena_append ha (show 1 < s.arena.length by omega)
  refine ⟨?_, ?_, ?_, ?_, ?_, ?_⟩
  · unfold latLonAt; rw [e0]; exact c0
  · unfold latLonAt; rw [e1]; exact c1
  · have : s.arena.length ≤ t.arena.length := by simp [ha]
    omega
  · rw [e1]; exact hgt
  · rw [e1]; exact hrt
  · rw [ho]; exact hop

theorem shielded_get_neighbors {start goal : Coord} {s : DState}
    (hs : GoalShielded start goal s) (stepDeg : ℚ) (i : Nat) :
    GoalShielded start goal (get_neighbors stepDeg s i).2 := by
  obtain ⟨l, ha, ho⟩ := get_neighbors_spec stepDeg s i
  exact shielded_of_append hs ha ho

theorem shielded_update_node {start goal : Coord} {s : DState} {i : Nat}
    (sq : ℚ → ℚ) (hs : GoalShielded start goal s) :
    GoalShielded start goal (update_node sq s i) := by
  unfold update_node
  dsimp only
  split
  · next hc =>
    refine shielded_openList (shielded_writeNode hs rfl rfl ?_) ?_
    · rintro rfl
      exact absurd (hs.2.2.2.1.trans hs.2.2.2.2.1.symm) hc.1
    · intro j hj
      exact Or.inl (Heapq.mem_heapify hj)
  · split
    · next hc =>
      refine shielded_openList (shielded_writeNode hs rfl rfl ?_) ?_
      · rintro rfl
        exact absurd (hs.2.2.2.1.trans hs.2.2.2.2.1.symm) hc.1
      · intro j hj
        rcases Heapq.mem_heappush hj with h | h
        · exact Or.inl h
        · refine Or.inr ?_
          rw [h]
          rintro rfl
          exact absurd (hs.2.2.2.1.trans hs.2.2.2.2.1.symm) hc.1
    · split
      · have h1 : GoalShielded start goal
            { s with openList := (Heapq.removeFirst
                (fun a b => dnodeEq (s.nodeAt a) (s.nodeAt b)) i s.openList) } :=
          shielded_openList hs (fun j hj => Or.inl (Heapq.mem_removeFirst hj))
        exact shielded_openList
          (s := { s with openList := (Heapq.removeFirst
            (fun a b => dnodeEq (s.nodeAt a) (s.nodeAt b)) i s.openList) })
          h1 (fun j hj => Or.inl (Heapq.mem_heapify hj))
      · exact hs

theorem dnodeEq_goal_start_false {start goal : Coord} {s : DState}
    (hre : ¬ RoundEq start goal) (hc : latLonAt s 0 = start ∧ latLonAt s 1 = goal) :
    dnodeEq (s.nodeAt 1) (s.nodeAt 0) = false := by
  have h0lat : (s.nodeAt 0).lat = start.1 := congrArg Prod.fst hc.1
  have h0lon : (s.nodeAt 0).lon = start.2 := congrArg Prod.snd hc.1
  have h1lat : (s.nodeAt 1).lat = goal.1 := congrArg Prod.fst hc.2
  have h1lon : (s.nodeAt 1).lon = goal.2 := congrArg Prod.snd hc.2
  unfold dnodeEq
  rw [h0lat, h0lon, h1lat, h1lon]
  simp only [decide_eq_false_iff_not]
  intro hand
  exact hre ⟨hand.1.symm, hand.2.symm⟩

theorem coords_of_shielded {start goal : Coord} {s : DState}
    (hs : GoalShielded start goal s) : CoordsOK start goal s :=
  ⟨hs.1, hs.2.1, hs.2.2.1⟩

theorem coords_of_arena_eq {start goal : Coord} {s t : DState}
    (h : t.arena = s.arena) (hc : CoordsOK start goal s) : CoordsOK start goal t := by
  obtain ⟨c0, c1, hlen⟩ := hc
  refine ⟨?_, ?_, ?_⟩
  · unfold latLonAt DState.nodeAt
    unfold latLonAt DState.nodeAt at c0
    rw [h]; exact c0
  · unfold latLonAt DState.nodeAt
    unfold latLonAt DState.nodeAt at c1
    rw [h]; exact c1
  · rw [h]; exact hlen

theorem coords_writeNode {start goal : Coord} {s : DState} {i : Nat} {n : DNode}
    (hc : CoordsOK start goal s)
    (hlat : n.lat = (s.nodeAt i).lat) (hlon : n.lon = (s.nodeAt i).lon) :
    CoordsOK start goal (writeNode s i n) := by
  obtain ⟨c0, c1, hlen⟩ := hc
  have hp := preserves_writeNode hlat hlon
  exact ⟨(hp.2 0 (by omega)).trans c0, (hp.2 1 (by omega)).trans c1,
    by rw [length_writeNode]; exact hlen⟩

theorem coords_of_append {start goal : Coord} {s t : DState} {l : List DNode}
    (hc : CoordsOK start goal s) (ha : t.arena = s.arena ++ l) :
    CoordsOK start goal t := by
  obtain ⟨c0, c1, hlen⟩ := hc
  have e0 := nodeAt_of_arena_append ha (show 0 < s.arena.length by omega)
  have e1 := nodeAt_of_arena_append ha (show 1 < s.arena.length by omega)
  refine ⟨?_, ?_, ?_⟩
  · unfold latLonAt; rw [e0]; exact c0
  · unfold latLonAt; rw [e1]; exact c1
  · have : s.arena.length ≤ t.arena.length := by simp [ha]
    omega

theorem coords_get_neighbors {start goal : Coord} {s : DState}
    (hc : CoordsOK start goal s) (stepDeg : ℚ) (i : Nat) :
    CoordsOK start goal (get_neighbors stepDeg s i).2 := by
  obtain ⟨l, ha, _⟩ := get_neighbors_spec stepDeg s i
  exact coords_of_append hc ha

theorem coords_update_node {start goal : Coord} {s : DState} {i : Nat}
    (sq : ℚ → ℚ) (hc : CoordsOK start goal s) :
    CoordsOK start goal (update_node sq s i) := by
  unfold update_node
  dsimp only
  split
  · exact coords_of_arena_eq rfl (coords_writeNode hc rfl rfl)
  · split
    · exact coords_of_arena_eq rfl (coords_writeNode hc rfl rfl)
    · split
      · exact coords_of_arena_eq rfl hc
      · exact hc

theorem coords_computeBody {start goal : Coord} {s : DState}
    (sq : ℚ → ℚ) (stepDeg : ℚ) (hc : CoordsOK start goal s) :
    CoordsOK start goal (computeBody sq stepDeg s) := by
  unfold computeBody
  rcases hpop : Heapq.heappop (openLt s) s.openList with _ | ⟨cur, openRest⟩
  · exact hc
  · dsimp only
    have hc0 : CoordsOK start goal { s with openList := openRest } :=
      coords_of_arena_eq rfl hc
    split
    · refine foldl_pres (CoordsOK start goal) ?_ _ _ ?_
      · intro st j hst
        refine coords_update_node sq ?_
        dsimp only
        split
        · exact coords_writeNode hst rfl rfl
        · exact hst
      · have hw : CoordsOK start goal (writeNode { s with openList := openRest } cur
            { DState.nodeAt { s with openList := openRest } cur with
                g := (DState.nodeAt { s with openList := openRest } cur).rhs }) :=
          coords_writeNode hc0 rfl rfl
        exact coords_get_neighbors hw stepDeg cur
    · refine foldl_pres (CoordsOK start goal) ?_ _ _ ?_
      · intro st j hst
        refine coords_update_node sq ?_
        dsimp only
        split
        · exact coords_writeNode (coords_get_neighbors hst stepDeg j) rfl rfl
        · exact hst
      · have hs1 : CoordsOK start goal (writeNode { s with openList := openRest } cur
            { DState.nodeAt { s with openList := openRest } cur with g := ⊤ }) :=
          coords_writeNode hc0 rfl rfl
        refine coords_get_neighbors (coords_update_node sq ?_) stepDeg cur
        split
        · exact coords_writeNode (coords_get_neighbors hs1 stepDeg cur) rfl rfl
        · exact hs1

theorem shielded_computeBody {start goal : Coord} {s : DState}
    (sq : ℚ → ℚ) (stepDeg : ℚ) (hre : RoundEq start goal)
    (hs : GoalShielded start goal s) :
    GoalShielded start goal (computeBody sq stepDeg s) := by
  unfold computeBody
  rcases hpop : Heapq.heappop (openLt s) s.openList with _ | ⟨cur, openRest⟩
  · exact hs
  · dsimp only
    have hcur1 : cur ≠ 1 := hs.2.2.2.2.2 cur (Heapq.heappop_mem (x := cur) hpop).1
    have hs0 : GoalShielded start goal { s with openList := openRest } :=
      shielded_openList hs (fun j hj => Or.inl ((Heapq.heappop_mem hpop).2 hj))
    split
    · refine foldl_pres (GoalShielded start goal) ?_ _ _ ?_
      · intro st j hst
        refine shielded_update_node sq ?_
        dsimp only
        split
        · next hguard =>
          refine shielded_writeNode hst rfl rfl ?_
          rintro rfl
          exact absurd (dnodeEq_goal_start hre hst) hguard
        · exact hst
      · have hw : GoalShielded start goal (writeNode { s with openList := openRest } cur
            { DState.nodeAt { s with openList := openRest } cur with
                g := (DState.nodeAt { s with openList := openRest } cur).rhs }) :=
          shielded_writeNode hs0 rfl rfl (fun hcc => absurd hcc hcur1)
        exact shielded_get_neighbors hw stepDeg cur
    · refine foldl_pres (GoalShielded start goal) ?_ _ _ ?_
      · intro st j hst
        refine shielded_update_node sq ?_
        dsimp only
        split
        · next hguard =>
          refine shielded_writeNode (shielded_get_neighbors hst stepDeg j) rfl rfl ?_
          rintro rfl
          exact absurd (dnodeEq_goal_start hre hst) hguard.2
        · exact hst
      · have hs1 : GoalShielded start goal (writeNode { s with openList := openRest } cur
            { DState.nodeAt { s with openList := openRest } cur with g := ⊤ }) :=
          shielded_writeNode hs0 rfl rfl (fun hcc => absurd hcc hcur1)
        refine shielded_get_neighbors (shielded_update_node sq ?_) stepDeg cur
        split
        · exact shielded_writeNode (shielded_get_neighbors hs1 stepDeg cur) rfl rfl
            (fun hcc => absurd hcc hcur1)
        · exact hs1

theorem coords_computeGo {start goal : Coord} (sq : ℚ → ℚ) (stepDeg : ℚ)
    (fuel : Nat) : ∀ {s : DState}, CoordsOK start goal s →
      CoordsOK start goal (computeGo sq stepDeg fuel s) := by
  induction fuel with
  | zero => intro s hs; exact hs
  | succ n ih =>
    intro s hs
    unfold computeGo
    rcases hh : s.openList.head? with _ | h
    · exact hs
    · dsimp only
      split
      · exact ih (coords_computeBody sq stepDeg hs)
      · exact hs

theorem shielded_computeGo {start goal : Coord} (sq : ℚ → ℚ) (stepDeg : ℚ)
    (hre : RoundEq start goal) (fuel : Nat) : ∀ {s : DState},
      GoalShielded start goal s →
      GoalShielded start goal (computeGo sq stepDeg fuel s) := by
  induction fuel with
  | zero => intro s hs; exact hs
  | succ n ih =>
    intro s hs
    unfold computeGo
    rcases hh : s.openList.head? with _ | h
    · exact hs
    · dsimp only
      split
      · exact ih (shielded_computeBody sq stepDeg hre hs)
      · exact hs

theorem shielded_initState (sq : ℚ → ℚ) (start goal : Coord) :
    GoalShielded start goal (initState sq start goal) := by
  refine ⟨rfl, rfl, le_refl 2, rfl, rfl, ?_⟩
  intro j hj
  have hj0 : j ∈ [0] := hj
  have hj1 : j = 0 := by simpa using hj0
  omega

theorem inv_initState (sq : ℚ → ℚ) (start goal : Coord) :
    DStarInv start goal (initState sq start goal) :=
  ⟨coords_of_shielded (shielded_initState sq start goal),
   fun _ => shielded_initState sq start goal⟩

theorem inv_computeGo {start goal : Coord} (sq : ℚ → ℚ) (stepDeg : ℚ)
    (fuel : Nat) {s : DState} (h : DStarInv start goal s) :
    DStarInv start goal (computeGo sq stepDeg fuel s) :=
  ⟨coords_computeGo sq stepDeg fuel h.1,
   fun hre => shielded_computeGo sq stepDeg hre fuel (h.2 hre)⟩

theorem arenaExt_refl (s : DState) : ArenaExt s s := ⟨[], by simp⟩

theorem arenaExt_trans {s t u : DState} (h1 : ArenaExt s t) (h2 : ArenaExt t u) :
    ArenaExt s u := by
  obtain ⟨l1, e1⟩ := h1
  obtain ⟨l2, e2⟩ := h2
  exact ⟨l1 ++ l2, by rw [e2, e1, List.append_assoc]⟩

theorem arenaExt_node {s t : DState} (h : ArenaExt s t) {j : Nat}
    (hj : j < s.arena.length) : t.nodeAt j = s.nodeAt j := by
  obtain ⟨l, e⟩ := h
  exact nodeAt_of_arena_append e hj

/-- Shape of the extraction loop output: the accumulator, then the visited
best predecessors, then the coordinates of the start object, reversed; the
state only grows by fresh neighbor objects and the open list is untouched. -/
theorem extractGo_spec (sq : ℚ → ℚ) (stepDeg : ℚ) :
    ∀ (fuel : Nat) (s : DState) (cur : Nat) (acc : List Coord),
      ∃ t s2, extractGo sq stepDeg fuel s cur acc =
          (((acc ++ t) ++ [((s2.nodeAt 0).lat, (s2.nodeAt 0).lon)]).reverse, s2) ∧
        ArenaExt s s2 ∧ s2.openList = s.openList := by
  intro fuel
  induction fuel with
  | zero =>
    intro s cur acc
    exact ⟨[], s, by simp [extractGo], arenaExt_refl s, rfl⟩
  | succ n ih =>
    intro s cur acc
    unfold extractGo
    split
    · dsimp only
      obtain ⟨l, ha, ho⟩ := get_neighbors_spec stepDeg s cur
      rcases hcb : chooseBestPred sq (get_neighbors stepDeg s cur).2
          (get_neighbors stepDeg s cur).1 cur with _ | p
      · exact ⟨[((s.nodeAt cur).lat, (s.nodeAt cur).lon)], (get_neighbors stepDeg s cur).2,
          rfl, ⟨l, ha⟩, ho⟩
      · obtain ⟨t, s2, he, hext, hop⟩ := ih (get_neighbors stepDeg s cur).2 p
          (acc ++ [((s.nodeAt cur).lat, (s.nodeAt cur).lon)])
        refine ⟨[((s.nodeAt cur).lat, (s.nodeAt cur).lon)] ++ t, s2, ?_,
          arenaExt_trans ⟨l, ha⟩ hext, hop.trans ho⟩
        dsimp only
        rw [he, ← List.append_assoc]
    · exact ⟨[], s, by simp, arenaExt_refl s, rfl⟩

/-- The common final phase of plan and replan: extract when the goal g is
finite, else return the empty polyline. -/
theorem extract_core {start goal : Coord} (sq : ℚ → ℚ) (stepDeg : ℚ) {s1 : DState}
    (hinv : DStarInv start goal s1) :
    EndpointSpec start goal
      (if (s1.nodeAt 1).g < (⊤ : Val) then extractGo sq stepDeg 1001 s1 1 [] else ([], s1)) ∧
    DStarInv start goal
      (if (s1.nodeAt 1).g < (⊤ : Val) then extractGo sq stepDeg 1001 s1 1 [] else ([], s1)).2 := by
  obtain ⟨hco, hsh⟩ := hinv
  by_cases hg : (s1.nodeAt 1).g < (⊤ : Val)
  · rw [if_pos hg]
    have hnre : ¬ RoundEq start goal := by
      intro hre
      rw [(hsh hre).2.2.2.1] at hg
      exact lt_irrefl _ hg
    have hguard : dnodeEq (s1.nodeAt 1) (s1.nodeAt 0) = false ∧
        ([] : List Coord).length < 1000 :=
      ⟨dnodeEq_goal_start_false hnre ⟨hco.1, hco.2.1⟩, by norm_num⟩
    have h1001 : (1001 : Nat) = 1000 + 1 := by norm_num
    obtain ⟨t, s2, he, hext, hop⟩ :
        ∃ t s2, extractGo sq stepDeg 1001 s1 1 [] =
            ((([((s1.nodeAt 1).lat, (s1.nodeAt 1).lon)] ++ t) ++
              [((s2.nodeAt 0).lat, (s2.nodeAt 0).lon)]).reverse, s2) ∧
          ArenaExt s1 s2 ∧ s2.openList = s1.openList := by
      rw [h1001]
      unfold extractGo
      rw [if_pos hguard]
      dsimp only
      obtain ⟨l, ha, ho⟩ := get_neighbors_spec stepDeg s1 1
      rcases hcb : chooseBestPred sq (get_neighbors stepDeg s1 1).2
          (get_neighbors stepDeg s1 1).1 1 with _ | p
      · exact ⟨[], (get_neighbors stepDeg s1 1).2, rfl, ⟨l, ha⟩, ho⟩
      · obtain ⟨t, s2, he, hext, hop⟩ := extractGo_spec sq stepDeg 1000
          (get_neighbors stepDeg s1 1).2 p ([] ++ [((s1.nodeAt 1).lat, (s1.nodeAt 1).lon)])
        exact ⟨t, s2, he, arenaExt_trans ⟨l, ha⟩ hext, hop.trans ho⟩
    have hlen2 : 2 ≤ s1.arena.length := hco.2.2
    have hs20 : ((s2.nodeAt 0).lat, (s2.nodeAt 0).lon) = start := by
      have := arenaExt_node hext (show 0 < s1.arena.length by omega)
      rw [this]
      exact hco.1
    have hs21 : ((s1.nodeAt 1).lat, (s1.nodeAt 1).lon) = goal := hco.2.1
    rw [he, hs20, hs21]
    have hg2 : (s2.nodeAt 1).g = (s1.nodeAt 1).g := by
      rw [arenaExt_node hext (show 1 < s1.arena.length by omega)]
    constructor
    · constructor
      · constructor
        · intro hemp
          exact absurd hemp (by simp)
        · intro htop
          have h2 : (s1.nodeAt 1).g = ⊤ := by rw [← hg2]; exact htop
          rw [h2] at hg
          exact absurd hg (lt_irrefl _)
      · intro _
        constructor
        · rw [List.reverse_append]
          rfl
        · rw [List.getLast?_reverse]
          rfl
    · obtain ⟨l2, e2⟩ := hext
      exact ⟨coords_of_append hco e2, fun hre => absurd hre hnre⟩
  · rw [if_neg hg]
    have hgtop : (s1.nodeAt 1).g = ⊤ := by
      by_contra hne
      exact hg (lt_top_iff_ne_top.2 hne)
    exact ⟨⟨⟨fun _ => hgtop, fun _ => rfl⟩, fun hne => absurd rfl hne⟩, hco, hsh⟩

theorem plan_endpoints (sq : ℚ → ℚ) (start goal : Coord) (stepSizeNm : ℚ)
    (maxIterations : Nat) :
    EndpointSpec start goal (plan sq start goal stepSizeNm maxIterations) ∧
    DStarInv start goal (plan sq start goal stepSizeNm maxIterations).2 := by
  unfold plan
  dsimp only
  exact extract_core sq (stepSizeNm / 60)
    (inv_computeGo sq (stepSizeNm / 60) maxIterations (inv_initState sq start goal))

theorem replan_endpoints (sq : ℚ → ℚ) (stepDeg : ℚ) (maxIterations : Nat)
    (changed : List Coord) {start goal : Coord} {s : DState}
    (hinv : DStarInv start goal s) :
    EndpointSpec start goal (replan sq stepDeg maxIterations changed s) ∧
    DStarInv start goal (replan sq stepDeg maxIterations changed s).2 := by
  unfold replan
  dsimp only
  refine extract_core sq stepDeg (inv_computeGo sq stepDeg maxIterations ?_)
  refine foldl_pres (DStarInv start goal) ?_ changed s hinv
  intro st c hst
  dsimp only
  rcases hdf : dictFind st (roundDp 6 c.1, roundDp 6 c.2) with _ | i
  · exact hst
  · dsimp only
    refine foldl_pres (DStarInv start goal) ?_ _ _ ?_
    · intro st2 j hst2
      refine ⟨coords_update_node sq ?_, fun hre => shielded_update_node sq ?_⟩
      · dsimp only
        split
        · exact coords_writeNode (coords_get_neighbors hst2.1 stepDeg j) rfl rfl
        · exact hst2.1
      · dsimp only
        split
        · next hguard =>
          refine shielded_writeNode (shielded_get_neighbors (hst2.2 hre) stepDeg j) rfl rfl ?_
          rintro rfl
          exact absurd (dnodeEq_goal_start hre (hst2.2 hre)) hguard
        · exact hst2.2 hre
    · exact ⟨coords_get_neighbors hst.1 stepDeg i,
        fun hre => shielded_get_neighbors (hst.2 hre) stepDeg i⟩

end DStar

/-- C9: every non-empty polyline returned by the incremental replanner's plan
or replan starts at the start coordinate and ends at the goal coordinate
(the 1000-vertex extraction cap notwithstanding), and the empty polyline is
returned exactly when the goal's g value is still infinite after the
compute-shortest-path loop; the state invariant is preserved, so the property
holds across chained replans. -/
theorem dstar_plan_replan_endpoints (sq : ℚ → ℚ) (start goal : Coord)
    (stepSizeNm stepDeg : ℚ) (maxIterations : Nat) (changed : List Coord)
    (s : DStar.DState) (hinv : DStar.DStarInv start goal s) :
    DStar.EndpointSpec start goal (DStar.plan sq start goal stepSizeNm maxIterations) ∧
    DStar.DStarInv start goal (DStar.plan sq start goal stepSizeNm maxIterations).2 ∧
    DStar.EndpointSpec start goal (DStar.replan sq stepDeg maxIterations changed s) ∧
    DStar.DStarInv start goal (DStar.replan sq stepDeg maxIterations changed s).2 :=
  ⟨(DStar.plan_endpoints sq start goal stepSizeNm maxIterations).1,
   (DStar.plan_endpoints sq start goal stepSizeNm maxIterations).2,
   (DStar.replan_endpoints sq stepDeg maxIterations changed hinv).1,
   (DStar.replan_endpoints sq stepDeg maxIterations changed hinv).2⟩

set_option maxRecDepth 8000 in
set_option maxHeartbeats 16000000 in
theorem dstar_plan_replan_endpoints_witness :
    DStar.EndpointSpec ((0 : ℚ), (50 : ℚ)) ((1 : ℚ)/2, (50 : ℚ))
      (DStar.plan ratSqrt (0, 50) (1/2, 50) 30 10) ∧
    DStar.EndpointSpec ((0 : ℚ), (50 : ℚ)) ((1 : ℚ)/2, (50 : ℚ))
      (DStar.replan ratSqrt (1/2) 10 [] (DStar.plan ratSqrt (0, 50) (1/2, 50) 30 10).2) := by
  have h := dstar_plan_replan_endpoints ratSqrt (0, 50) (1/2, 50) 30 (1/2) 10 []
    (DStar.plan ratSqrt (0, 50) (1/2, 50) 30 10).2
    ⟨⟨by decide, by decide, by decide⟩, fun hre => absurd hre.1 (by decide)⟩
  exact ⟨h.1, h.2.2.1⟩


theorem c3_iter (month : Nat) (gwp : Nat → Coord × Nat) (k : Nat) :
    Hybrid.planIter ratSqrt month gwp (fun _ => 0) (0, 35) (0, 35.2) 0.5 (10 / 60)
      ⟨[Hybrid.HNode.mk 0 35 0 none], [Hybrid.HNode.mk 0 35.2 0 none], none, ⊤, k⟩ =
      ⟨[Hybrid.HNode.mk 0 35 0 none], [Hybrid.HNode.mk 0 35.2 0 none], none, ⊤, k + 2⟩ := rfl

theorem c3_loop (month : Nat) (gwp : Nat → Coord × Nat) :
    ∀ (n k : Nat), ∃ m,
      Hybrid.planLoop ratSqrt month gwp (fun _ => 0) (0, 35) (0, 35.2) 0.5 (10 / 60) n
        ⟨[Hybrid.HNode.mk 0 35 0 none], [Hybrid.HNode.mk 0 35.2 0 none], none, ⊤, k⟩ =
      ⟨[Hybrid.HNode.mk 0 35 0 none], [Hybrid.HNode.mk 0 35.2 0 none], none, ⊤, m⟩ := by
  intro n
  induction n with
  | zero => intro k; exact ⟨k, rfl⟩
  | succ i ih =>
    intro k
    show ∃ m,
      Hybrid.planLoop ratSqrt month gwp (fun _ => 0) (0, 35) (0, 35.2) 0.5 (10 / 60) i
        (Hybrid.planIter ratSqrt month gwp (fun _ => 0) (0, 35) (0, 35.2) 0.5 (10 / 60)
          ⟨[Hybrid.HNode.mk 0 35 0 none], [Hybrid.HNode.mk 0 35.2 0 none], none, ⊤, k⟩) =
      ⟨[Hybrid.HNode.mk 0 35 0 none], [Hybrid.HNode.mk 0 35.2 0 none], none, ⊤, m⟩
    rw [c3_iter month gwp k]
    exact ih (k + 2)

/-- With the constantly-zero random stream, the hybrid planner between the
land-locked points (0,35) and (0,35.2) never extends either tree and returns
the empty waypoint list. -/
theorem c3_hybrid_empty (month : Nat) (gwp : Nat → Coord × Nat) :
    Hybrid.plan ratSqrt month gwp (fun _ => 0) 12 (0, 35) (0, 35.2) 400 10 = [] := by
  unfold Hybrid.plan
  dsimp only
  have hbias : (if (12 : ℚ) < 500 then (0.5 : ℚ)
      else if (12 : ℚ) < 1000 then 0.35 else 0.2) = 0.5 := by norm_num
  rw [hbias]
  obtain ⟨m, hm⟩ := c3_loop month gwp 400 0
  rw [hm]
  rfl

set_option maxRecDepth 8000 in
set_option maxHeartbeats 16000000 in
theorem c3_dstar_empty : (DStar.plan ratSqrt (0, 35) (0, 35.2) 10 (400 / 2)).1 = [] := by
  decide

set_option maxRecDepth 8000 in
set_option maxHeartbeats 16000000 in
theorem c3_snap_start : RouteCalculator.snapped ((0 : ℚ), (35 : ℚ)) = (0, 35) := by
  decide

set_option maxRecDepth 8000 in
set_option maxHeartbeats 16000000 in
theorem c3_snap_end : RouteCalculator.snapped ((0 : ℚ), (35.2 : ℚ)) = (0, 35.2) := by
  decide

theorem c3_params :
    RouteCalculator.adaptiveParams
      (RouteCalculator.routeDistNm ratSqrt (0, 35) (0, 35.2)) = (400, 10) := by
  decide

/-- The general shape of the plan_route fallback, for any oracles and inputs:
with the hybrid planner returning fewer than 2 waypoints, plan_route is the
D* planner run on the same snapped endpoints with half the iteration budget,
erroring when that too returns fewer than 2 waypoints. -/
theorem c3_core (sq : ℚ → ℚ) (month : Nat)
    (gwp : Nat → Coord × Nat) (rng : Nat → ℚ) (hvDistNm : ℚ)
    (startLat startLon endLat endLon : ℚ) (s1 e1 : Coord) (mi : Nat) (st : ℚ)
    (hs : RouteCalculator.snapped (startLat, startLon) = s1)
    (he : RouteCalculator.snapped (endLat, endLon) = e1)
    (hp : RouteCalculator.adaptiveParams (RouteCalculator.routeDistNm sq s1 e1) = (mi, st))
    (hfew : (Hybrid.plan sq month gwp rng hvDistNm s1 e1 mi st).length < 2) :
    RouteCalculator.plan_route sq month gwp rng hvDistNm startLat startLon endLat endLon =
      (let w := (DStar.plan sq s1 e1 st (mi / 2)).1
       if w.length < 2 then
         Except.error "No valid water-only route found by RRT* or D*. Please check port coordinates or try alternative ports."
       else
         let interp := RouteCalculator.interpolate_route w 100
         if interp.length < 2 then
           Except.error "Interpolation failed: No valid water-only route."
         else Except.ok interp) := by
  unfold RouteCalculator.plan_route
  dsimp only
  rw [hs, he, hp]
  dsimp only
  rw [if_pos hfew]

/-- C3: the claim is wrong about the fallback planner and about the result.
When the hybrid bidirectional planner returns fewer than 2 waypoints,
plan_route does not invoke the grid A* planner: it falls back to the D*
planner on the same snapped endpoints with half the iteration budget, and
when that also returns fewer than 2 waypoints it raises an error instead of
returning a non-empty route. -/
theorem plan_route_fallback_is_dstar (sq : ℚ → ℚ) (month : Nat)
    (gwp : Nat → Coord × Nat) (rng : Nat → ℚ) (hvDistNm : ℚ)
    (startLat startLon endLat endLon : ℚ) (s1 e1 : Coord) (mi : Nat) (st : ℚ)
    (hs : RouteCalculator.snapped (startLat, startLon) = s1)
    (he : RouteCalculator.snapped (endLat, endLon) = e1)
    (hp : RouteCalculator.adaptiveParams (RouteCalculator.routeDistNm sq s1 e1) = (mi, st))
    (hfew : (Hybrid.plan sq month gwp rng hvDistNm s1 e1 mi st).length < 2) :
    RouteCalculator.plan_route sq month gwp rng hvDistNm startLat startLon endLat endLon =
      (let w := (DStar.plan sq s1 e1 st (mi / 2)).1
       if w.length < 2 then
         Except.error "No valid water-only route found by RRT* or D*. Please check port coordinates or try alternative ports."
       else
         let interp := RouteCalculator.interpolate_route w 100
         if interp.length < 2 then
           Except.error "Interpolation failed: No valid water-only route."
         else Except.ok interp) :=
  c3_core sq month gwp rng hvDistNm startLat startLon endLat endLon s1 e1 mi st hs he hp hfew

theorem plan_route_fallback_is_dstar_witness :
    RouteCalculator.plan_route ratSqrt 1 (fun j => ((0, 0), j)) (fun _ => 0) 12 0 35 0 35.2 =
      (let w := (DStar.plan ratSqrt (0, 35) (0, 35.2) 10 (400 / 2)).1
       if w.length < 2 then
         Except.error "No valid water-only route found by RRT* or D*. Please check port coordinates or try alternative ports."
       else
         let interp := RouteCalculator.interpolate_route w 100
         if interp.length < 2 then
           Except.error "Interpolation failed: No valid water-only route."
         else Except.ok interp) :=
  plan_route_fallback_is_dstar ratSqrt 1 (fun j => ((0, 0), j)) (fun _ => 0) 12 0 35 0 35.2
    (0, 35) (0, 35.2) 400 10 c3_snap_start c3_snap_end c3_params
    (by rw [c3_hybrid_empty]; decide)

/-- C3 counterexample run: between the land-locked endpoints (0,35) and
(0,35.2) (constantly-zero random stream), the hybrid planner returns no
waypoints, the D* fallback returns the empty polyline, and plan_route raises
the no-route error instead of returning a non-empty route from the grid A*
planner. -/
theorem plan_route_fallback_error :
    Hybrid.plan ratSqrt 1 (fun j => ((0, 0), j)) (fun _ => 0) 12 (0, 35) (0, 35.2) 400 10 = [] ∧
    (DStar.plan ratSqrt (0, 35) (0, 35.2) 10 (400 / 2)).1 = [] ∧
    RouteCalculator.plan_route ratSqrt 1 (fun j => ((0, 0), j)) (fun _ => 0) 12 0 35 0 35.2 =
      Except.error "No valid water-only route found by RRT* or D*. Please check port coordinates or try alternative ports." := by
  refine ⟨c3_hybrid_empty 1 (fun j => ((0, 0), j)), c3_dstar_empty, ?_⟩
  have h := c3_core ratSqrt 1 (fun j => ((0, 0), j)) (fun _ => 0) 12 0 35 0 35.2
    (0, 35) (0, 35.2) 400 10 c3_snap_start c3_snap_end c3_params
    (by rw [c3_hybrid_empty]; decide)
  rw [h]
  dsimp only
  rw [c3_dstar_empty]
  rfl


set_option maxRecDepth 8000 in
set_option maxHeartbeats 16000000 in
/-- C8: the sampling planner draws from the ambient process-global random
stream (random.random and random.choice are never seeded from the request or
its inputs), so one request can return different polylines depending only on
the ambient stream state the invocation happens to observe.  With every draw
reading 0 the planner goal-biases into the blocking singapore polygon and
returns no waypoints; with every draw reading 1 (the global water sampler
pointing at (1.0, 103.55)) the same request returns a 4-waypoint route. -/
theorem hybrid_plan_depends_on_ambient_randomness :
    Hybrid.plan ratSqrt 1 (fun j => (((1 : ℚ), (103.55 : ℚ)), j)) (fun _ => 0) 12
      (1.3, 103.55) (1.3, 103.95) 1 10 = [] ∧
    Hybrid.plan ratSqrt 1 (fun j => (((1 : ℚ), (103.55 : ℚ)), j)) (fun _ => 1) 12
      (1.3, 103.55) (1.3, 103.95) 1 10 =
      [(1.3, 103.55), (1.2375, 6223 / 60), (1.2, 6229 / 60), (1.3, 103.95)] := by
  constructor
  · decide
  · decide

end ShipRouting
